import Mathlib

/-!
Shallow embedding of the signal-to-order pipeline of `src/app.py`
(bbangdol-bot): anti-spam gate, risk/position configuration store, order
sizing, protective-order flow, and the Binance REST client control flow.

Modelling conventions:
* Python floats are modelled as exact rationals (`ℚ`); decimal literals
  below denote the same numbers as the decimal literals in the source.
* Python dicts acting as records are structures; a dict that may lack
  keys (the per-symbol store) is a structure of `Option` fields, and
  `d.get(k, default)` is `Option.getD`.
* The process-global mutable maps (`STATE`, `_LAST_SENT_AT`,
  `_RECENT_MSG_HASH`) become explicit state values threaded through the
  operations; dicts used as maps become association lists.
* Network effects (mark price, balance, exchange filters, order
  placement outcomes, Telegram delivery) are inputs to the embedded
  handlers; an order call that would raise is a `false` success flag and
  the embedding then follows the source's exception propagation.
-/

namespace BncBot

/-! ### String primitives

The embeddings of the Python string operations work on the character
list underlying a `String`, so that they evaluate by kernel reduction
(the corresponding `String` library functions use byte positions and do
not).  Uppercasing is ASCII, which covers every symbol, action and mode
string the program handles. -/

/-- Embedding of `str.upper()`. -/
def strUpper (s : String) : String := String.mk (s.data.map Char.toUpper)

/-- Embedding of `str.lower()`. -/
def strLower (s : String) : String := String.mk (s.data.map Char.toLower)

/-- Embedding of `str.strip()`. -/
def strTrim (s : String) : String :=
  String.mk (((s.data.dropWhile Char.isWhitespace).reverse.dropWhile Char.isWhitespace).reverse)

/-- Embedding of `str.startswith(pre)`. -/
def strStartsWith (s pre : String) : Bool := pre.data.isPrefixOf s.data

/-- Embedding of `str.endswith(suf)`. -/
def strEndsWith (s suf : String) : Bool := suf.data.reverse.isPrefixOf s.data.reverse

/-- Embedding of `s[:-n]` for n ≤ len(s). -/
def strDropRight (s : String) (n : Nat) : String := String.mk (s.data.take (s.data.length - n))

/-- Containment of `needle` in a character list. -/
def listContains (needle : List Char) : List Char → Bool
  | [] => needle.isEmpty
  | c :: cs => needle.isPrefixOf (c :: cs) || listContains needle cs

/-- Embedding of Python `needle in hay` on strings. -/
def strContains (hay needle : String) : Bool := listContains needle.data hay.data

/-- Association-list lookup, the embedding of Python `dict.get`. -/
def alookup {α β : Type} [DecidableEq α] : List (α × β) → α → Option β
  | [], _ => none
  | p :: ps, a => if p.1 = a then some p.2 else alookup ps a

/-- Association-list update, the embedding of Python `dict[k] = v`. -/
def aset {α β : Type} [DecidableEq α] : List (α × β) → α → β → List (α × β)
  | [], a, b => [(a, b)]
  | p :: ps, a, b => if p.1 = a then (a, b) :: ps else p :: aset ps a b

/-- Association-list removal, the embedding of Python `dict.pop(k, None)`. -/
def aerase {α β : Type} [DecidableEq α] : List (α × β) → α → List (α × β)
  | [], _ => []
  | p :: ps, a => if p.1 = a then ps else p :: aerase ps a

/-- Trailing-stop parameter pair, the `{"act": .., "cb": ..}` dict (app.py:421-423). -/
structure TrailCfg where
  act : ℚ
  cb : ℚ
deriving DecidableEq, Repr, Inhabited

/-- A stored trailing dict is either complete or empty (`{}` is falsy in
Python; partially-filled dicts are never stored by any write path). -/
inductive TrailVal where
  | empty
  | full (c : TrailCfg)
deriving DecidableEq, Repr, Inhabited

/-- One risk preset: default stop-loss %, trailing params, allocation phases. -/
structure RiskPreset where
  sl : ℚ
  trail : TrailCfg
  phases : List ℚ
deriving DecidableEq, Repr

/-- RISK_PRESETS (app.py:420-424). -/
def RISK_PRESETS (name : String) : Option RiskPreset :=
  if name = "safe" then some ⟨1.5, ⟨1.5, 0.4⟩, [0.20, 0.25, 0.33, 0.50, 1.00]⟩
  else if name = "normal" then some ⟨1.0, ⟨1.0, 0.3⟩, [0.25, 0.33, 0.50, 1.00]⟩
  else if name = "aggressive" then some ⟨0.7, ⟨0.6, 0.2⟩, [0.33, 0.50, 1.00]⟩
  else none

/-- The "normal" preset, used as the `getD` default where the source
indexes `RISK_PRESETS` with a key already validated by `_risk_or_default`. -/
def normalPreset : RiskPreset := ⟨1.0, ⟨1.0, 0.3⟩, [0.25, 0.33, 0.50, 1.00]⟩

/-- Total accessor for a preset by validated key. -/
def presetOf (name : String) : RiskPreset := (RISK_PRESETS name).getD normalPreset

/-- _risk_or_default (app.py:426-428): `(name or "normal").lower()`,
falling back to "normal" for unknown keys. -/
def _risk_or_default (name : String) : String :=
  let n := if name = "" then "normal" else strLower name
  if (RISK_PRESETS n).isSome then n else "normal"

/-- One stored per-symbol dict (value of `STATE["pairs"][sym]`); every
key may be absent. -/
structure PairStored where
  dir : Option String
  lev : Option Int
  sl : Option ℚ
  trail : Option TrailVal
  legs : Option Nat
  risk : Option String
deriving DecidableEq, Repr

/-- The fully-defaulted view returned by get_pair_cfg. -/
structure PairCfg where
  dir : String
  lev : Int
  sl : ℚ
  trail : TrailVal
  legs : Nat
  risk : String
deriving DecidableEq, Repr

/-- The process-global STATE dict (app.py:430-436). -/
structure BotState where
  global_mode : String
  split_enabled : Bool
  pairs : List (String × PairStored)
deriving DecidableEq, Repr

/-- Initial STATE: global BOTH, split entry on, no pairs (app.py:430-436). -/
def initState : BotState := ⟨"BOTH", true, []⟩

/-- get_pair_cfg (app.py:438-447). -/
def get_pair_cfg (st : BotState) (sym_orig : String) : PairCfg :=
  let d := (alookup st.pairs sym_orig).getD ⟨none, none, none, none, none, none⟩
  ⟨d.dir.getD "BOTH",
   d.lev.getD 10,
   d.sl.getD 1.0,
   d.trail.getD (TrailVal.full ⟨0.6, 0.2⟩),
   d.legs.getD 0,
   _risk_or_default (d.risk.getD "normal")⟩

/-- The dict-update step of save_pair_cfg: `base.update(cfg)` where
`cfg` holds only the present keys. -/
def updateCfg (base : PairCfg) (p : PairStored) : PairCfg :=
  ⟨p.dir.getD base.dir, p.lev.getD base.lev, p.sl.getD base.sl,
   p.trail.getD base.trail, p.legs.getD base.legs, p.risk.getD base.risk⟩

/-- After `base.update(cfg)` the stored dict has every key present. -/
def storedOfCfg (c : PairCfg) : PairStored :=
  ⟨some c.dir, some c.lev, some c.sl, some c.trail, some c.legs, some c.risk⟩

/-- save_pair_cfg (app.py:449-452): defaults are materialized through
get_pair_cfg, the partial update is merged, and the result stored. -/
def save_pair_cfg (st : BotState) (sym_orig : String) (p : PairStored) : BotState :=
  let base := get_pair_cfg st sym_orig
  let merged := updateCfg base p
  ⟨st.global_mode, st.split_enabled, aset st.pairs sym_orig (storedOfCfg merged)⟩

/-- The `{"legs": n}` update dict used by the trade handler. -/
def legsOnly (n : Nat) : PairStored := ⟨none, none, none, none, some n, none⟩

/-- allowed_by_mode (app.py:454-462). -/
def allowed_by_mode (st : BotState) (sym_orig side : String) : Bool :=
  let locd := (get_pair_cfg st sym_orig).dir
  let globalm := st.global_mode
  let eff := if locd = "LONG" ∨ locd = "SHORT" ∨ locd = "BOTH" ∨
                locd = "LONG_ONLY" ∨ locd = "SHORT_ONLY" then locd else globalm
  let eff2 := if eff = "LONG_ONLY" then "LONG"
              else if eff = "SHORT_ONLY" then "SHORT" else eff
  if eff2 = "BOTH" then true
  else if eff2 = "LONG" then (if side = "LONG" then true else false)
  else if eff2 = "SHORT" then (if side = "SHORT" then true else false)
  else true

/-- The merged order-parameter view (return dict of effective_params). -/
structure EffParams where
  sl : ℚ
  trail : TrailCfg
  phases : List ℚ
  lev : Int
  dir : String
  risk : String
  legs : Nat
deriving DecidableEq, Repr

/-- effective_params (app.py:464-472).  `cfg.get("sl") or rp["sl"]` uses
Python truthiness: the preset is consulted exactly when the configured
value is falsy (0 for the float, the empty dict for the trailing pair). -/
def effective_params (st : BotState) (sym_orig : String) : EffParams :=
  let cfg := get_pair_cfg st sym_orig
  let rp := (RISK_PRESETS cfg.risk).getD normalPreset
  let sl := if cfg.sl = 0 then rp.sl else cfg.sl
  let trail := match cfg.trail with
    | TrailVal.empty => rp.trail
    | TrailVal.full c => c
  ⟨sl, trail, rp.phases, cfg.lev, cfg.dir, cfg.risk, cfg.legs⟩

/-! ## Symbol and quantity normalization (app.py:246-282) -/

/-- normalize_binance_symbol (app.py:246-258): strip, uppercase, drop a
trailing ".P", then remove every character outside A-Z0-9. -/
def normalize_binance_symbol (sym : String) : String :=
  if sym = "" then sym
  else
    let s := strUpper (strTrim sym)
    let s := if strEndsWith s ".P" then strDropRight s 2 else s
    String.mk (s.data.filter fun c => c.isUpper || c.isDigit)

/-- round_to_step (app.py:265-268): floor `value` to a multiple of `step`. -/
def round_to_step (value step : ℚ) : ℚ :=
  if step ≤ 0 then value else (⌊value / step⌋ : ℤ) * step

/-- The exchange filter values the handlers read, with the source's
string defaults already applied (`stepSize` default 0.001, `minQty`
default 0.0, `tickSize` default 0.01); `get_symbol_filters` itself is a
network fetch and is an input here. -/
structure SymbolFilters where
  stepSize : ℚ
  minQty : ℚ
  tickSize : ℚ
deriving DecidableEq, Repr

/-- quantize_qty_for_symbol (app.py:277-282): floor to the lot step,
then raise to the minimum quantity. -/
def quantize_qty_for_symbol (f : SymbolFilters) (raw_qty : ℚ) : ℚ :=
  max (round_to_step raw_qty f.stepSize) f.minQty

/-- format_price_for_symbol (app.py:270-275), numeric content: floor the
raw price to the tick size (the decimal string rendering is not
modelled; the value sent to the exchange is this one). -/
def format_price_for_symbol (f : SymbolFilters) (raw_price : ℚ) : ℚ :=
  round_to_step raw_price f.tickSize

/-! ## Signed REST client control flow (app.py:300-340)

The HMAC signing and URL building are opaque to the claims; what is
modelled is the request/response control flow.  The transport is the
list of responses the network would return to successive requests; the
client consumes one list entry per HTTP request it makes, and an empty
transport stands for a network error (a `requests` exception). -/

/-- One HTTP response. -/
structure HttpResp where
  status : Nat
  body : String
deriving DecidableEq, Repr

/-- Outcome of a signed call: parsed body, a raised
`RuntimeError("Binance HTTP {status} {data}")`, or a propagated network
exception. -/
inductive BinanceResult where
  | ok (body : String)
  | httpError (status : Nat) (body : String)
  | netError
deriving DecidableEq, Repr

/-- _binance_get (app.py:300-319): exactly one request is issued; a
non-200 status of any class raises immediately with the status and the
exchange's response body. -/
def _binance_get (transport : List HttpResp) : BinanceResult :=
  match transport with
  | [] => BinanceResult.netError
  | r :: _ => if r.status = 200 then BinanceResult.ok r.body
              else BinanceResult.httpError r.status r.body

/-- _binance_post (app.py:321-340): identical control flow to _binance_get. -/
def _binance_post (transport : List HttpResp) : BinanceResult :=
  match transport with
  | [] => BinanceResult.netError
  | r :: _ => if r.status = 200 then BinanceResult.ok r.body
              else BinanceResult.httpError r.status r.body

/-! ## The /bnc/trade handler (app.py:764-878)

External effects are inputs: the mark price, the available balance, the
symbol filters, and a success flag per order-placement call (a `false`
flag is the call raising; the embedding then follows the source's
exception propagation into the route-level `except` block).  The secret
check and the optional symbol whitelist are environment-dependent
guards ahead of the modelled logic and are taken as passed; the three
read-only exchange fetches (mark price, balance, filters) are taken as
succeeding, since every claim is about the order path after them. -/

/-- One order request sent to the exchange (an OrderIntent). -/
structure Order where
  otype : String
  symbol : String
  side : String
  qty : ℚ
  reduceOnly : Bool
  priceRaw : Option ℚ
  price : Option ℚ
  callbackRate : Option ℚ
deriving DecidableEq, Repr, Inhabited

/-- Route-level outcome of /bnc/trade. -/
inductive TOut where
  | invalidAction
  | skippedMode
  | noBalance
  | exnError
  | okResult
deriving DecidableEq, Repr

/-- The exchange-facing inputs of one /bnc/trade request. -/
structure ExchangeEnv where
  price : ℚ
  avail : ℚ
  filters : SymbolFilters
  openOk : Bool
  stopOk : Bool
  trailOk : Bool
deriving DecidableEq, Repr

/-- Result of one /bnc/trade request: outcome, the orders that were
issued to the exchange, whether the best-effort confirmation message
was attempted, and the new configuration state. -/
structure TradeRes where
  out : TOut
  orders : List Order
  notified : Bool
  state : BotState
deriving DecidableEq, Repr

/-- Allocation-phase selection (app.py:799-803). -/
def split_phase (split_enabled : Bool) (legs : Nat) (phases : List ℚ) : ℚ :=
  if split_enabled then (if legs < phases.length then phases.getD legs 0 else 0) else 1

/-- The OPEN_LONG block (app.py:823-835): market entry, stop-market at
`price * (1 - sl/100)`, trailing stop activated at `price * (1 - act/100)`,
then the capped leg increment.  A failing call raises; the raise lands
in the route-level `except`, with everything placed so far left as is. -/
def open_long_branch (st : BotState) (env : ExchangeEnv) (symbol_orig base_sym : String)
    (ep : EffParams) (qty : ℚ) : TradeRes :=
  if env.openOk = false then ⟨TOut.exnError, [], false, st⟩
  else
    let entry : Order := ⟨"MARKET", base_sym, "BUY", qty, false, none, none, none⟩
    let sl_price := env.price * (1 - ep.sl / 100)
    if env.stopOk = false then ⟨TOut.exnError, [entry], false, st⟩
    else
      let stopOrd : Order := ⟨"STOP_MARKET", base_sym, "SELL", qty, true,
        some sl_price, some (format_price_for_symbol env.filters sl_price), none⟩
      let activation := env.price * (1 - ep.trail.act / 100)
      if env.trailOk = false then ⟨TOut.exnError, [entry, stopOrd], false, st⟩
      else
        let trailOrd : Order := ⟨"TRAILING_STOP_MARKET", base_sym, "SELL", qty, true,
          some activation, some (format_price_for_symbol env.filters activation), some ep.trail.cb⟩
        let st2 := save_pair_cfg st symbol_orig (legsOnly (min (ep.legs + 1) ep.phases.length))
        ⟨TOut.okResult, [entry, stopOrd, trailOrd], true, st2⟩

/-- The OPEN_SHORT block (app.py:837-849), mirror image with `+` offsets. -/
def open_short_branch (st : BotState) (env : ExchangeEnv) (symbol_orig base_sym : String)
    (ep : EffParams) (qty : ℚ) : TradeRes :=
  if env.openOk = false then ⟨TOut.exnError, [], false, st⟩
  else
    let entry : Order := ⟨"MARKET", base_sym, "SELL", qty, false, none, none, none⟩
    let sl_price := env.price * (1 + ep.sl / 100)
    if env.stopOk = false then ⟨TOut.exnError, [entry], false, st⟩
    else
      let stopOrd : Order := ⟨"STOP_MARKET", base_sym, "BUY", qty, true,
        some sl_price, some (format_price_for_symbol env.filters sl_price), none⟩
      let activation := env.price * (1 + ep.trail.act / 100)
      if env.trailOk = false then ⟨TOut.exnError, [entry, stopOrd], false, st⟩
      else
        let trailOrd : Order := ⟨"TRAILING_STOP_MARKET", base_sym, "BUY", qty, true,
          some activation, some (format_price_for_symbol env.filters activation), some ep.trail.cb⟩
        let st2 := save_pair_cfg st symbol_orig (legsOnly (min (ep.legs + 1) ep.phases.length))
        ⟨TOut.okResult, [entry, stopOrd, trailOrd], true, st2⟩

/-- The CLOSE_LONG / CLOSE_SHORT block (app.py:851-859): one reduce-only
market order at the exchange minimum unit, then a legs reset. -/
def close_branch (st : BotState) (env : ExchangeEnv) (symbol_orig base_sym action : String) :
    TradeRes :=
  let qty := quantize_qty_for_symbol env.filters (0 + env.filters.stepSize)
  if env.openOk = false then ⟨TOut.exnError, [], false, st⟩
  else
    let closeOrd : Order := ⟨"MARKET", base_sym,
      (if action = "CLOSE_LONG" then "SELL" else "BUY"), qty, true, none, none, none⟩
    let st2 := save_pair_cfg st symbol_orig (legsOnly 0)
    ⟨TOut.okResult, [closeOrd], true, st2⟩

/-- bnc_trade (app.py:764-878). -/
def bnc_trade (st : BotState) (env : ExchangeEnv) (symbol_raw action : String) : TradeRes :=
  let symbol_orig := strUpper symbol_raw
  let base_sym := normalize_binance_symbol symbol_orig
  if ¬ (action = "OPEN_LONG" ∨ action = "CLOSE_LONG" ∨
        action = "OPEN_SHORT" ∨ action = "CLOSE_SHORT") then
    ⟨TOut.invalidAction, [], false, st⟩
  else
    let side := if strContains action "LONG" then "LONG" else "SHORT"
    if strStartsWith action "OPEN" = true ∧ allowed_by_mode st symbol_orig side = false then
      ⟨TOut.skippedMode, [], false, st⟩
    else
      let ep := effective_params st symbol_orig
      let phase := split_phase st.split_enabled ep.legs ep.phases
      if strStartsWith action "OPEN" then
        let alloc_usdt := env.avail * phase
        if alloc_usdt ≤ 0 then ⟨TOut.noBalance, [], false, st⟩
        else
          let notional := alloc_usdt * (ep.lev : ℚ)
          let raw_qty := notional / env.price
          let qty := quantize_qty_for_symbol env.filters raw_qty
          if action = "OPEN_LONG" then open_long_branch st env symbol_orig base_sym ep qty
          else open_short_branch st env symbol_orig base_sym ep qty
      else close_branch st env symbol_orig base_sym action

/-! ## Configuration-store writers of the Telegram UI (app.py:542-720)

Only the operations that mutate `STATE` are modelled (ADD:SAVE,
LIST:DEL, GLOB:MODE, SPLIT:TOGGLE); the rest of the UI edits a
per-chat draft and never touches the store. -/

/-- The ADD:SAVE branch (app.py:576-596): normalize direction, fall back
to the preset for a falsy stop-loss or an incomplete trailing dict, and
store with `legs` 0.  `trailIn` is `none` when the draft's trailing dict
is missing or incomplete. -/
def ui_save (st : BotState) (sym : String) (dirIn : String) (levIn : Int)
    (riskIn : String) (slIn : ℚ) (trailIn : Option TrailCfg) : BotState :=
  let risk := _risk_or_default riskIn
  let sl := if slIn = 0 then (presetOf risk).sl else slIn
  let trail := match trailIn with
    | none => (presetOf risk).trail
    | some t => t
  let dir := if dirIn = "LONG" then "LONG" else if dirIn = "SHORT" then "SHORT" else "BOTH"
  save_pair_cfg st sym ⟨some dir, some levIn, some sl, some (TrailVal.full trail), some 0, some risk⟩

/-- The LIST:DEL branch (app.py:660-663): `STATE["pairs"].pop(sym, None)`. -/
def delete_pair (st : BotState) (sym : String) : BotState :=
  ⟨st.global_mode, st.split_enabled, aerase st.pairs sym⟩

/-- The GLOB:MODE branch (app.py:631-634): cycle the global mode. -/
def glob_mode_next (m : String) : String :=
  if m = "BOTH" then "LONG_ONLY" else if m = "LONG_ONLY" then "SHORT_ONLY" else "BOTH"

/-- GLOB:MODE applied to the state. -/
def toggle_global (st : BotState) : BotState :=
  ⟨glob_mode_next st.global_mode, st.split_enabled, st.pairs⟩

/-- The SPLIT:TOGGLE branch (app.py:635-637). -/
def toggle_split (st : BotState) : BotState :=
  ⟨st.global_mode, ¬ st.split_enabled, st.pairs⟩

/-- The states reachable from the initial STATE through the operations
that write the configuration store. -/
inductive Reachable : BotState → Prop where
  | init : Reachable initState
  | trade (st : BotState) (env : ExchangeEnv) (s a : String) :
      Reachable st → Reachable (bnc_trade st env s a).state
  | save (st : BotState) (sym d : String) (l : Int) (r : String) (s : ℚ)
      (t : Option TrailCfg) : Reachable st → Reachable (ui_save st sym d l r s t)
  | del (st : BotState) (sym : String) : Reachable st → Reachable (delete_pair st sym)
  | glob (st : BotState) : Reachable st → Reachable (toggle_global st)
  | split (st : BotState) : Reachable st → Reachable (toggle_split st)

/-! ## Anti-spam gate and core alert handler (app.py:19-68, 168-192)

`_extract_signature` mixes a regex search with a SHA-1 digest; it is
abstracted as a parameter `sigf` (every claim about the gate holds for
an arbitrary signature function).  Python's `hash` of the normalized
message is modelled as the message itself (an injective hash).  Time is
a rational, passed explicitly where the source calls `now()`. -/

/-- COOLDOWN_SEC (app.py:20). -/
def COOLDOWN_SEC : ℚ := 60

/-- DEDUP_WINDOW_SEC (app.py:21). -/
def DEDUP_WINDOW_SEC : ℚ := 60

/-- _CLEAN_EVERY (app.py:27). -/
def _CLEAN_EVERY : Nat := 100

/-- MAX_LEN (app.py:77). -/
def MAX_LEN : Nat := 3900

/-- safe_text (app.py:89-93); `None` input is ruled out by the callers,
which always pass a string. -/
def safe_text (s : String) : String :=
  if s.data.length ≤ MAX_LEN then s
  else String.mk (s.data.take (MAX_LEN - 20) ++ "\n...[truncated]".data)

/-- The module-level anti-spam state: `_LAST_SENT_AT`,
`_RECENT_MSG_HASH`, `_opcount`. -/
structure SpamState where
  lastSentAt : List (String × ℚ)
  recentMsg : List ((String × String) × ℚ)
  opcount : Nat
deriving DecidableEq, Repr

/-- Fresh anti-spam state at process start. -/
def initSpam : SpamState := ⟨[], [], 0⟩

/-- _bucket_key (app.py:42-44) over an abstract signature function. -/
def _bucket_key (sigf : String → String) (chat_id symbol route msg : String) : String :=
  chat_id ++ ":" ++ symbol ++ ":" ++ route ++ ":" ++ sigf msg

/-- _can_send_now (app.py:46-48). -/
def _can_send_now (s : SpamState) (t : ℚ) (bucket : String) : Bool :=
  match alookup s.lastSentAt bucket with
  | none => true
  | some last => decide (t - last ≥ COOLDOWN_SEC)

/-- _mark_sent (app.py:50-51). -/
def _mark_sent (s : SpamState) (t : ℚ) (bucket : String) : SpamState :=
  ⟨aset s.lastSentAt bucket t, s.recentMsg, s.opcount⟩

/-- The periodic purge inside _is_duplicate (app.py:63-67): drop entries
whose timestamp is before the cutoff. -/
def cleanRecent (recent : List ((String × String) × ℚ)) (cutoff : ℚ) :
    List ((String × String) × ℚ) :=
  recent.filter fun kv => decide (cutoff ≤ kv.2)

/-- The recording half of _is_duplicate (app.py:61-67): store the pair,
bump `_opcount`, and purge every `_CLEAN_EVERY` operations. -/
def _dedup_record (s : SpamState) (t : ℚ) (k : String × String) : SpamState :=
  let rec1 := aset s.recentMsg k t
  let oc := s.opcount + 1
  let rec2 := if oc % _CLEAN_EVERY = 0 then cleanRecent rec1 (t - DEDUP_WINDOW_SEC) else rec1
  ⟨s.lastSentAt, rec2, oc⟩

/-- _is_duplicate (app.py:53-68). -/
def _is_duplicate (s : SpamState) (t : ℚ) (bucket msg_norm : String) : Bool × SpamState :=
  match alookup s.recentMsg (bucket, msg_norm) with
  | some t0 =>
      if t - t0 < DEDUP_WINDOW_SEC then (true, s)
      else (false, _dedup_record s t (bucket, msg_norm))
  | none => (false, _dedup_record s t (bucket, msg_norm))

/-- Outcome of _handle_payload. -/
inductive HandleOut where
  | errMissing
  | unknownRoute
  | skippedCooldown
  | skippedDedup
  | sent
  | telegramFailed
  | sendExn
deriving DecidableEq, Repr

/-- _handle_payload (app.py:168-192).  `routeChat` is the
environment-built ROUTE_TO_CHAT map; `tgOk` is the Telegram delivery
outcome (`none`: the post raised; `some b`: response with ok flag `b`). -/
def _handle_payload (sigf : String → String) (routeChat : String → Option String)
    (s : SpamState) (t : ℚ) (route msg symbol : String) (tgOk : Option Bool) :
    HandleOut × SpamState :=
  if route = "" ∨ msg = "" then (HandleOut.errMissing, s)
  else
    match routeChat route with
    | none => (HandleOut.unknownRoute, s)
    | some chat_id =>
        let bucket := _bucket_key sigf chat_id symbol route msg
        let msg_norm := safe_text msg
        if _can_send_now s t bucket = false then (HandleOut.skippedCooldown, s)
        else
          match _is_duplicate s t bucket msg_norm with
          | (true, s1) => (HandleOut.skippedDedup, s1)
          | (false, s1) =>
              match tgOk with
              | none => (HandleOut.sendExn, s1)
              | some false => (HandleOut.telegramFailed, s1)
              | some true => (HandleOut.sent, _mark_sent s1 t bucket)

/-! ## Association-list lemmas -/

theorem alookup_aset_self {α β : Type} [DecidableEq α] (l : List (α × β)) (a : α) (b : β) :
    alookup (aset l a b) a = some b := by
  induction l with
  | nil => simp [aset, alookup]
  | cons p ps ih =>
      by_cases h : p.1 = a
      · simp [aset, h, alookup]
      · simp [aset, h, alookup, ih]

theorem alookup_aset_ne {α β : Type} [DecidableEq α] (l : List (α × β)) (a c : α) (b : β)
    (h : a ≠ c) : alookup (aset l a b) c = alookup l c := by
  induction l with
  | nil => simp [aset, alookup, h]
  | cons p ps ih =>
      by_cases h1 : p.1 = a
      · subst h1; simp [aset, alookup, h]
      · simp [aset, h1, alookup, ih]

theorem mem_aset {α β : Type} [DecidableEq α] (l : List (α × β)) (a : α) (b : β)
    (q : α × β) (hq : q ∈ aset l a b) : q = (a, b) ∨ q ∈ l := by
  induction l with
  | nil => simpa [aset] using hq
  | cons p ps ih =>
      by_cases h1 : p.1 = a
      · simp only [aset, if_pos h1, List.mem_cons] at hq
        rcases hq with h | h
        · exact Or.inl h
        · exact Or.inr (List.mem_cons_of_mem _ h)
      · simp only [aset, if_neg h1, List.mem_cons] at hq
        rcases hq with h | h
        · exact Or.inr (h ▸ List.mem_cons_self _ _)
        · rcases ih h with h2 | h2
          · exact Or.inl h2
          · exact Or.inr (List.mem_cons_of_mem _ h2)

theorem mem_aerase {α β : Type} [DecidableEq α] (l : List (α × β)) (a : α)
    (q : α × β) (hq : q ∈ aerase l a) : q ∈ l := by
  induction l with
  | nil => simp [aerase] at hq
  | cons p ps ih =>
      by_cases h1 : p.1 = a
      · simp only [aerase, if_pos h1] at hq
        exact List.mem_cons_of_mem _ hq
      · simp only [aerase, if_neg h1, List.mem_cons] at hq
        rcases hq with h | h
        · exact h ▸ List.mem_cons_self _ _
        · exact List.mem_cons_of_mem _ (ih h)

theorem alookup_mem {α β : Type} [DecidableEq α] (l : List (α × β)) (a : α) (b : β)
    (h : alookup l a = some b) : (a, b) ∈ l := by
  induction l with
  | nil => simp [alookup] at h
  | cons p ps ih =>
      by_cases h1 : p.1 = a
      · simp only [alookup, if_pos h1, Option.some.injEq] at h
        have hp : p = (a, b) := Prod.ext h1 h
        exact hp ▸ List.mem_cons_self _ _
      · simp only [alookup, if_neg h1] at h
        exact List.mem_cons_of_mem _ (ih h)

theorem alookup_filter_none {α β : Type} [DecidableEq α] (l : List (α × β))
    (p : α × β → Bool) (a : α) (h : alookup l a = none) :
    alookup (l.filter p) a = none := by
  induction l with
  | nil => simp [alookup]
  | cons q qs ih =>
      by_cases h1 : q.1 = a
      · simp [alookup, if_pos h1] at h
      · simp only [alookup, if_neg h1] at h
        by_cases h2 : p q
        · simp [List.filter_cons, h2, alookup, if_neg h1, ih h]
        · simp [List.filter_cons, h2, ih h]

/-! ## Structure of the trade handler's state update -/

theorem open_long_branch_state (st : BotState) (env : ExchangeEnv) (u b : String)
    (ep : EffParams) (q : ℚ) :
    (open_long_branch st env u b ep q).state = st ∨
    (open_long_branch st env u b ep q).state =
      save_pair_cfg st u (legsOnly (min (ep.legs + 1) ep.phases.length)) := by
  unfold open_long_branch
  split_ifs <;> simp

theorem open_short_branch_state (st : BotState) (env : ExchangeEnv) (u b : String)
    (ep : EffParams) (q : ℚ) :
    (open_short_branch st env u b ep q).state = st ∨
    (open_short_branch st env u b ep q).state =
      save_pair_cfg st u (legsOnly (min (ep.legs + 1) ep.phases.length)) := by
  unfold open_short_branch
  split_ifs <;> simp

theorem close_branch_state (st : BotState) (env : ExchangeEnv) (u b a : String) :
    (close_branch st env u b a).state = st ∨
    (close_branch st env u b a).state = save_pair_cfg st u (legsOnly 0) := by
  unfold close_branch
  split_ifs <;> simp

/-- Every path through bnc_trade either leaves the store untouched or
saves a `{"legs": n}` update for the uppercased raw symbol, with `n`
bounded by the length of the symbol's effective phase list. -/
theorem branch_state_cases {r : TradeRes} {st : BotState} {u : String} {m L : Nat}
    (hm : m ≤ L) (h : r.state = st ∨ r.state = save_pair_cfg st u (legsOnly m)) :
    r.state = st ∨ ∃ n : Nat, n ≤ L ∧ r.state = save_pair_cfg st u (legsOnly n) := by
  rcases h with h | h
  · exact Or.inl h
  · exact Or.inr ⟨m, hm, h⟩

theorem bnc_trade_state_cases (st : BotState) (env : ExchangeEnv) (s a : String) :
    (bnc_trade st env s a).state = st ∨
    ∃ n : Nat, n ≤ (effective_params st (strUpper s)).phases.length ∧
      (bnc_trade st env s a).state = save_pair_cfg st (strUpper s) (legsOnly n) := by
  simp only [bnc_trade]
  split_ifs
  all_goals
    first
      | (left; rfl)
      | exact branch_state_cases (Nat.min_le_right _ _) (open_long_branch_state _ _ _ _ _ _)
      | exact branch_state_cases inf_le_right (open_long_branch_state _ _ _ _ _ _)
      | exact branch_state_cases (Nat.min_le_right _ _) (open_short_branch_state _ _ _ _ _ _)
      | exact branch_state_cases inf_le_right (open_short_branch_state _ _ _ _ _ _)
      | exact branch_state_cases (Nat.zero_le _) (close_branch_state _ _ _ _ _)

/-! ## Risk-key normalization lemmas -/

theorem risk_or_default_mem (r : String) :
    _risk_or_default r = "safe" ∨ _risk_or_default r = "normal" ∨
    _risk_or_default r = "aggressive" := by
  unfold _risk_or_default
  by_cases h0 : r = ""
  · simp [h0, RISK_PRESETS]
  · by_cases h1 : strLower r = "safe"
    · simp [RISK_PRESETS, h0, h1]
    · by_cases h2 : strLower r = "normal"
      · simp [RISK_PRESETS, h0, h1, h2]
      · by_cases h3 : strLower r = "aggressive"
        · simp [RISK_PRESETS, h0, h1, h2, h3]
        · simp [RISK_PRESETS, h0, h1, h2, h3]

theorem risk_or_default_idem (r : String) :
    _risk_or_default (_risk_or_default r) = _risk_or_default r := by
  rcases risk_or_default_mem r with h | h | h <;> rw [h] <;> decide

/-- The risk key of any get_pair_cfg view is normalized. -/
theorem get_pair_cfg_risk_norm (st : BotState) (sym : String) :
    _risk_or_default (get_pair_cfg st sym).risk = (get_pair_cfg st sym).risk := by
  have h : (get_pair_cfg st sym).risk =
      _risk_or_default (((alookup st.pairs sym).getD
        ⟨none, none, none, none, none, none⟩).risk.getD "normal") := rfl
  rw [h, risk_or_default_idem]

/-! ## The legs range invariant (C7 machinery) -/

/-- Legs value of a stored record as get_pair_cfg reads it. -/
def storedLegs (d : PairStored) : Nat := d.legs.getD 0

/-- Risk key of a stored record as get_pair_cfg reads it. -/
def storedRisk (d : PairStored) : String := _risk_or_default (d.risk.getD "normal")

/-- Every record in the store keeps its legs within its own preset's
phase count. -/
def StoredInv (st : BotState) : Prop :=
  ∀ q ∈ st.pairs, storedLegs q.2 ≤ (presetOf (storedRisk q.2)).phases.length

theorem effective_legs_le (st : BotState) (h : StoredInv st) (sym : String) :
    (effective_params st sym).legs ≤ (effective_params st sym).phases.length := by
  have hl : (effective_params st sym).legs = (get_pair_cfg st sym).legs := rfl
  have hp : (effective_params st sym).phases =
      (presetOf (get_pair_cfg st sym).risk).phases := rfl
  rw [hl, hp]
  cases hcase : alookup st.pairs sym with
  | none =>
      have : (get_pair_cfg st sym).legs = 0 := by
        simp [get_pair_cfg, hcase]
      simp [this]
  | some d =>
      have h1 : (get_pair_cfg st sym).legs = storedLegs d := by
        simp [get_pair_cfg, hcase, storedLegs]
      have h2 : (get_pair_cfg st sym).risk = storedRisk d := by
        simp [get_pair_cfg, hcase, storedRisk]
      rw [h1, h2]
      exact h (sym, d) (alookup_mem _ _ _ hcase)

/-- The merged record stored by a `{"legs": n}` save keeps the prior
risk key and carries legs `n`. -/
theorem storedInv_save_legs (st : BotState) (u : String) (n : Nat)
    (hst : StoredInv st) (hn : n ≤ (effective_params st u).phases.length) :
    StoredInv (save_pair_cfg st u (legsOnly n)) := by
  intro q hq
  have hq2 : q = (u, storedOfCfg (updateCfg (get_pair_cfg st u) (legsOnly n))) ∨ q ∈ st.pairs :=
    mem_aset _ _ _ _ hq
  rcases hq2 with rfl | hmem
  · have h1 : storedLegs (storedOfCfg (updateCfg (get_pair_cfg st u) (legsOnly n))) = n := rfl
    have h2 : storedRisk (storedOfCfg (updateCfg (get_pair_cfg st u) (legsOnly n))) =
        (get_pair_cfg st u).risk := by
      have : storedRisk (storedOfCfg (updateCfg (get_pair_cfg st u) (legsOnly n))) =
          _risk_or_default (get_pair_cfg st u).risk := rfl
      rw [this, get_pair_cfg_risk_norm]
    simp only [h1, h2]
    exact hn
  · exact hst q hmem

theorem storedInv_trade (st : BotState) (env : ExchangeEnv) (s a : String)
    (h : StoredInv st) : StoredInv (bnc_trade st env s a).state := by
  rcases bnc_trade_state_cases st env s a with h1 | ⟨n, hn, h1⟩ <;> rw [h1]
  · exact h
  · exact storedInv_save_legs _ _ _ h hn

theorem storedInv_ui_save (st : BotState) (sym d : String) (l : Int) (r : String)
    (sq : ℚ) (t : Option TrailCfg) (h : StoredInv st) :
    StoredInv (ui_save st sym d l r sq t) := by
  intro q hq
  have hq2 := mem_aset _ _ _ _ hq
  rcases hq2 with rfl | hmem
  · simp [storedLegs, storedOfCfg, updateCfg, legsOnly]
  · exact h q hmem

theorem storedInv_delete (st : BotState) (sym : String) (h : StoredInv st) :
    StoredInv (delete_pair st sym) := by
  intro q hq
  exact h q (mem_aerase _ _ _ hq)

theorem reachable_storedInv (st : BotState) (h : Reachable st) : StoredInv st := by
  induction h with
  | init => intro q hq; simp [initState] at hq
  | trade st env s a _ ih => exact storedInv_trade st env s a ih
  | save st sym d l r sq t _ ih => exact storedInv_ui_save st sym d l r sq t ih
  | del st sym _ ih => exact storedInv_delete st sym ih
  | glob st _ ih => exact ih
  | split st _ ih => exact ih

/-! ## Dispatch lemmas: bnc_trade at each concrete action -/

/-- The quantity computed for an OPEN (app.py:808-814). -/
def tradeQty (st : BotState) (env : ExchangeEnv) (symbol_orig : String) : ℚ :=
  quantize_qty_for_symbol env.filters
    (env.avail * split_phase st.split_enabled (effective_params st symbol_orig).legs
      (effective_params st symbol_orig).phases * ((effective_params st symbol_orig).lev : ℚ) /
      env.price)

theorem bnc_trade_OPEN_LONG_eq (st : BotState) (env : ExchangeEnv) (s : String) :
    bnc_trade st env s "OPEN_LONG" =
      (if allowed_by_mode st (strUpper s) "LONG" = false then ⟨TOut.skippedMode, [], false, st⟩
       else if env.avail * split_phase st.split_enabled (effective_params st (strUpper s)).legs
          (effective_params st (strUpper s)).phases ≤ 0 then ⟨TOut.noBalance, [], false, st⟩
       else open_long_branch st env (strUpper s) (normalize_binance_symbol (strUpper s))
          (effective_params st (strUpper s)) (tradeQty st env (strUpper s))) := by
  have h1 : strContains "OPEN_LONG" "LONG" = true := by decide
  have h2 : strStartsWith "OPEN_LONG" "OPEN" = true := by decide
  simp [bnc_trade, h1, h2, tradeQty]

theorem bnc_trade_OPEN_SHORT_eq (st : BotState) (env : ExchangeEnv) (s : String) :
    bnc_trade st env s "OPEN_SHORT" =
      (if allowed_by_mode st (strUpper s) "SHORT" = false then ⟨TOut.skippedMode, [], false, st⟩
       else if env.avail * split_phase st.split_enabled (effective_params st (strUpper s)).legs
          (effective_params st (strUpper s)).phases ≤ 0 then ⟨TOut.noBalance, [], false, st⟩
       else open_short_branch st env (strUpper s) (normalize_binance_symbol (strUpper s))
          (effective_params st (strUpper s)) (tradeQty st env (strUpper s))) := by
  have h1 : strContains "OPEN_SHORT" "LONG" = false := by decide
  have h2 : strStartsWith "OPEN_SHORT" "OPEN" = true := by decide
  simp [bnc_trade, h1, h2, tradeQty]

theorem bnc_trade_CLOSE_LONG_eq (st : BotState) (env : ExchangeEnv) (s : String) :
    bnc_trade st env s "CLOSE_LONG" =
      close_branch st env (strUpper s) (normalize_binance_symbol (strUpper s)) "CLOSE_LONG" := by
  have h2 : strStartsWith "CLOSE_LONG" "OPEN" = false := by decide
  simp [bnc_trade, h2]

theorem bnc_trade_CLOSE_SHORT_eq (st : BotState) (env : ExchangeEnv) (s : String) :
    bnc_trade st env s "CLOSE_SHORT" =
      close_branch st env (strUpper s) (normalize_binance_symbol (strUpper s)) "CLOSE_SHORT" := by
  have h2 : strStartsWith "CLOSE_SHORT" "OPEN" = false := by decide
  simp [bnc_trade, h2]

/-! ## Branch result lemmas -/

theorem open_long_branch_ok_inv (st : BotState) (env : ExchangeEnv) (u b : String)
    (ep : EffParams) (q : ℚ) (h : (open_long_branch st env u b ep q).out = TOut.okResult) :
    open_long_branch st env u b ep q =
      ⟨TOut.okResult,
       [⟨"MARKET", b, "BUY", q, false, none, none, none⟩,
        ⟨"STOP_MARKET", b, "SELL", q, true, some (env.price * (1 - ep.sl / 100)),
          some (format_price_for_symbol env.filters (env.price * (1 - ep.sl / 100))), none⟩,
        ⟨"TRAILING_STOP_MARKET", b, "SELL", q, true, some (env.price * (1 - ep.trail.act / 100)),
          some (format_price_for_symbol env.filters (env.price * (1 - ep.trail.act / 100))),
          some ep.trail.cb⟩],
       true, save_pair_cfg st u (legsOnly (min (ep.legs + 1) ep.phases.length))⟩ := by
  unfold open_long_branch at h ⊢
  split_ifs at h ⊢ <;> simp_all

theorem open_short_branch_ok_inv (st : BotState) (env : ExchangeEnv) (u b : String)
    (ep : EffParams) (q : ℚ) (h : (open_short_branch st env u b ep q).out = TOut.okResult) :
    open_short_branch st env u b ep q =
      ⟨TOut.okResult,
       [⟨"MARKET", b, "SELL", q, false, none, none, none⟩,
        ⟨"STOP_MARKET", b, "BUY", q, true, some (env.price * (1 + ep.sl / 100)),
          some (format_price_for_symbol env.filters (env.price * (1 + ep.sl / 100))), none⟩,
        ⟨"TRAILING_STOP_MARKET", b, "BUY", q, true, some (env.price * (1 + ep.trail.act / 100)),
          some (format_price_for_symbol env.filters (env.price * (1 + ep.trail.act / 100))),
          some ep.trail.cb⟩],
       true, save_pair_cfg st u (legsOnly (min (ep.legs + 1) ep.phases.length))⟩ := by
  unfold open_short_branch at h ⊢
  split_ifs at h ⊢ <;> simp_all

theorem open_long_branch_entry_fail (st : BotState) (env : ExchangeEnv) (u b : String)
    (ep : EffParams) (q : ℚ) (h1 : env.openOk = false) :
    open_long_branch st env u b ep q = ⟨TOut.exnError, [], false, st⟩ := by
  unfold open_long_branch
  simp [h1]

theorem open_long_branch_stop_fail (st : BotState) (env : ExchangeEnv) (u b : String)
    (ep : EffParams) (q : ℚ) (h1 : env.openOk = true) (h2 : env.stopOk = false) :
    open_long_branch st env u b ep q =
      ⟨TOut.exnError, [⟨"MARKET", b, "BUY", q, false, none, none, none⟩], false, st⟩ := by
  unfold open_long_branch
  simp [h1, h2]

theorem open_long_branch_trail_fail (st : BotState) (env : ExchangeEnv) (u b : String)
    (ep : EffParams) (q : ℚ) (h1 : env.openOk = true) (h2 : env.stopOk = true)
    (h3 : env.trailOk = false) :
    open_long_branch st env u b ep q =
      ⟨TOut.exnError,
       [⟨"MARKET", b, "BUY", q, false, none, none, none⟩,
        ⟨"STOP_MARKET", b, "SELL", q, true, some (env.price * (1 - ep.sl / 100)),
          some (format_price_for_symbol env.filters (env.price * (1 - ep.sl / 100))), none⟩],
       false, st⟩ := by
  unfold open_long_branch
  simp [h1, h2, h3]

theorem open_short_branch_stop_fail (st : BotState) (env : ExchangeEnv) (u b : String)
    (ep : EffParams) (q : ℚ) (h1 : env.openOk = true) (h2 : env.stopOk = false) :
    open_short_branch st env u b ep q =
      ⟨TOut.exnError, [⟨"MARKET", b, "SELL", q, false, none, none, none⟩], false, st⟩ := by
  unfold open_short_branch
  simp [h1, h2]

theorem open_short_branch_trail_fail (st : BotState) (env : ExchangeEnv) (u b : String)
    (ep : EffParams) (q : ℚ) (h1 : env.openOk = true) (h2 : env.stopOk = true)
    (h3 : env.trailOk = false) :
    open_short_branch st env u b ep q =
      ⟨TOut.exnError,
       [⟨"MARKET", b, "SELL", q, false, none, none, none⟩,
        ⟨"STOP_MARKET", b, "BUY", q, true, some (env.price * (1 + ep.sl / 100)),
          some (format_price_for_symbol env.filters (env.price * (1 + ep.sl / 100))), none⟩],
       false, st⟩ := by
  unfold open_short_branch
  simp [h1, h2, h3]

theorem close_branch_ok (st : BotState) (env : ExchangeEnv) (u b a : String)
    (h : env.openOk = true) :
    close_branch st env u b a =
      ⟨TOut.okResult,
       [⟨"MARKET", b, (if a = "CLOSE_LONG" then "SELL" else "BUY"),
         quantize_qty_for_symbol env.filters (0 + env.filters.stepSize), true, none, none, none⟩],
       true, save_pair_cfg st u (legsOnly 0)⟩ := by
  unfold close_branch
  simp [h]

/-- The effective legs counter after a `{"legs": n}` save is `n`. -/
theorem effective_legs_save (st : BotState) (u : String) (n : Nat) :
    (effective_params (save_pair_cfg st u (legsOnly n)) u).legs = n := by
  have h : (effective_params (save_pair_cfg st u (legsOnly n)) u).legs =
      (get_pair_cfg (save_pair_cfg st u (legsOnly n)) u).legs := rfl
  rw [h]
  simp [get_pair_cfg, save_pair_cfg, alookup_aset_self, storedOfCfg, updateCfg, legsOnly]

/-! ## Concrete fixtures used by witnesses and counterexamples -/

/-- A benign exchange snapshot: mark price 50000, 1000 USDT available,
BTC-like filters, all order calls succeeding. -/
def envA : ExchangeEnv := ⟨50000, 1000, ⟨0.001, 0.001, 0.01⟩, true, true, true⟩

/-! ## Claim theorems -/

/-- C7: in every reachable configuration state, every symbol's effective
legs counter lies in [0, len(phases)] for its effective phase list; all
store-writing operations preserve this. -/
theorem C7_legs_range (st : BotState) (h : Reachable st) (sym : String) :
    0 ≤ (effective_params st sym).legs ∧
    (effective_params st sym).legs ≤ (effective_params st sym).phases.length :=
  ⟨Nat.zero_le _, effective_legs_le st (reachable_storedInv st h) sym⟩

/-- Witness for C7 at the state reached by one successful OPEN_LONG. -/
theorem C7_legs_range_witness :
    0 ≤ (effective_params (bnc_trade initState envA "BTCUSDT.P" "OPEN_LONG").state
          "BTCUSDT.P").legs ∧
    (effective_params (bnc_trade initState envA "BTCUSDT.P" "OPEN_LONG").state
        "BTCUSDT.P").legs ≤
      (effective_params (bnc_trade initState envA "BTCUSDT.P" "OPEN_LONG").state
          "BTCUSDT.P").phases.length :=
  C7_legs_range _ (Reachable.trade initState envA "BTCUSDT.P" "OPEN_LONG" Reachable.init)
    "BTCUSDT.P"

/-- C1: evaluation at the failing input.  With global mode LONG_ONLY and
a symbol absent from the store (local mode defaulting to BOTH), an OPEN
signal on the SHORT side is allowed — `allowed_by_mode` treats the local
default BOTH as overriding, so a restrictive global mode never rejects
such a symbol (dually for SHORT_ONLY); the first conjunct shows the
global mode is ignored whenever the stored local mode is BOTH. -/
theorem C1_global_mode_shadowed :
    (∀ st sym side, (get_pair_cfg st sym).dir = "BOTH" →
        allowed_by_mode st sym side = true) ∧
    allowed_by_mode ⟨"LONG_ONLY", true, []⟩ "ETHUSDT.P" "SHORT" = true ∧
    allowed_by_mode ⟨"SHORT_ONLY", true, []⟩ "ETHUSDT.P" "LONG" = true := by
  refine ⟨?_, by decide, by decide⟩
  intro st sym side h
  simp [allowed_by_mode, h]

/-- Witness for C1's universal conjunct at an explicitly stored BOTH. -/
theorem C1_global_mode_shadowed_witness :
    allowed_by_mode
      ⟨"SHORT_ONLY", true, [("BTCUSDT", ⟨some "BOTH", none, none, none, none, none⟩)]⟩
      "BTCUSDT" "LONG" = true :=
  C1_global_mode_shadowed.1 _ "BTCUSDT" "LONG" (by decide)

theorem open_long_branch_all_ok (st : BotState) (env : ExchangeEnv) (u b : String)
    (ep : EffParams) (q : ℚ) (h1 : env.openOk = true) (h2 : env.stopOk = true)
    (h3 : env.trailOk = true) :
    open_long_branch st env u b ep q =
      ⟨TOut.okResult,
       [⟨"MARKET", b, "BUY", q, false, none, none, none⟩,
        ⟨"STOP_MARKET", b, "SELL", q, true, some (env.price * (1 - ep.sl / 100)),
          some (format_price_for_symbol env.filters (env.price * (1 - ep.sl / 100))), none⟩,
        ⟨"TRAILING_STOP_MARKET", b, "SELL", q, true, some (env.price * (1 - ep.trail.act / 100)),
          some (format_price_for_symbol env.filters (env.price * (1 - ep.trail.act / 100))),
          some ep.trail.cb⟩],
       true, save_pair_cfg st u (legsOnly (min (ep.legs + 1) ep.phases.length))⟩ := by
  unfold open_long_branch
  simp [h1, h2, h3]

/-- C5: with split entry on, a successful OPEN advances the symbol's
legs counter by exactly one; once legs equals the phase count, an OPEN
picks phase 0.0 and is rejected before any order ("no available
balance"), leaving the state untouched; a successful CLOSE resets legs
to 0 from any prior value. -/
theorem C5_split_legs_lifecycle :
    (∀ st env s a, st.split_enabled = true → (a = "OPEN_LONG" ∨ a = "OPEN_SHORT") →
      (bnc_trade st env s a).out = TOut.okResult →
      (effective_params (bnc_trade st env s a).state (strUpper s)).legs =
        (effective_params st (strUpper s)).legs + 1) ∧
    (∀ st env s a, (a = "OPEN_LONG" ∨ a = "OPEN_SHORT") → st.split_enabled = true →
      allowed_by_mode st (strUpper s) (if a = "OPEN_LONG" then "LONG" else "SHORT") = true →
      (effective_params st (strUpper s)).legs = (effective_params st (strUpper s)).phases.length →
      bnc_trade st env s a = ⟨TOut.noBalance, [], false, st⟩) ∧
    (∀ st env s a, (a = "CLOSE_LONG" ∨ a = "CLOSE_SHORT") → env.openOk = true →
      (bnc_trade st env s a).out = TOut.okResult ∧
      (effective_params (bnc_trade st env s a).state (strUpper s)).legs = 0) := by
  refine ⟨?_, ?_, ?_⟩
  · intro st env s a hsplit ha hout
    rcases ha with rfl | rfl
    · rw [bnc_trade_OPEN_LONG_eq] at hout ⊢
      by_cases hmode : allowed_by_mode st (strUpper s) "LONG" = false
      · rw [if_pos hmode] at hout
        simp at hout
      · rw [if_neg hmode] at hout ⊢
        by_cases halloc : env.avail * split_phase st.split_enabled
            (effective_params st (strUpper s)).legs
            (effective_params st (strUpper s)).phases ≤ 0
        · rw [if_pos halloc] at hout
          simp at hout
        · rw [if_neg halloc] at hout ⊢
          have hlt : (effective_params st (strUpper s)).legs <
              (effective_params st (strUpper s)).phases.length := by
            by_contra hge
            exact halloc (by simp [split_phase, hsplit, hge])
          rw [open_long_branch_ok_inv _ _ _ _ _ _ hout]
          dsimp only
          rw [effective_legs_save]
          exact Nat.min_eq_left (Nat.succ_le_of_lt hlt)
    · rw [bnc_trade_OPEN_SHORT_eq] at hout ⊢
      by_cases hmode : allowed_by_mode st (strUpper s) "SHORT" = false
      · rw [if_pos hmode] at hout
        simp at hout
      · rw [if_neg hmode] at hout ⊢
        by_cases halloc : env.avail * split_phase st.split_enabled
            (effective_params st (strUpper s)).legs
            (effective_params st (strUpper s)).phases ≤ 0
        · rw [if_pos halloc] at hout
          simp at hout
        · rw [if_neg halloc] at hout ⊢
          have hlt : (effective_params st (strUpper s)).legs <
              (effective_params st (strUpper s)).phases.length := by
            by_contra hge
            exact halloc (by simp [split_phase, hsplit, hge])
          rw [open_short_branch_ok_inv _ _ _ _ _ _ hout]
          dsimp only
          rw [effective_legs_save]
          exact Nat.min_eq_left (Nat.succ_le_of_lt hlt)
  · intro st env s a ha hsplit hmode hsat
    rcases ha with rfl | rfl
    · rw [if_pos rfl] at hmode
      rw [bnc_trade_OPEN_LONG_eq, if_neg (by simp [hmode]),
        if_pos (by simp [split_phase, hsplit, hsat])]
    · rw [if_neg (by decide)] at hmode
      rw [bnc_trade_OPEN_SHORT_eq, if_neg (by simp [hmode]),
        if_pos (by simp [split_phase, hsplit, hsat])]
  · intro st env s a ha hok
    rcases ha with rfl | rfl
    · rw [bnc_trade_CLOSE_LONG_eq, close_branch_ok _ _ _ _ _ hok]
      exact ⟨rfl, by dsimp only; rw [effective_legs_save]⟩
    · rw [bnc_trade_CLOSE_SHORT_eq, close_branch_ok _ _ _ _ _ hok]
      exact ⟨rfl, by dsimp only; rw [effective_legs_save]⟩

/-- A store with the BTCUSDT.P legs counter already saturated at the
"normal" preset's four phases. -/
def stFull : BotState := ⟨"BOTH", true, [("BTCUSDT.P", ⟨none, none, none, none, some 4, none⟩)]⟩

/-- Witness for C5: one successful OPEN_LONG from the initial state
advances legs 0 → 1; at legs = 4 = len(phases) a further OPEN_LONG is
rejected with no order and no state change; CLOSE_LONG resets legs to 0. -/
theorem C5_split_legs_lifecycle_witness :
    (effective_params (bnc_trade initState envA "BTCUSDT.P" "OPEN_LONG").state
        "BTCUSDT.P").legs = (effective_params initState "BTCUSDT.P").legs + 1 ∧
    bnc_trade stFull envA "BTCUSDT.P" "OPEN_LONG" = ⟨TOut.noBalance, [], false, stFull⟩ ∧
    ((bnc_trade stFull envA "BTCUSDT.P" "CLOSE_LONG").out = TOut.okResult ∧
      (effective_params (bnc_trade stFull envA "BTCUSDT.P" "CLOSE_LONG").state
          "BTCUSDT.P").legs = 0) := by
  have hup : strUpper "BTCUSDT.P" = "BTCUSDT.P" := by decide
  have hlegs0 : (effective_params initState "BTCUSDT.P").legs = 0 := rfl
  have hphases : (effective_params initState "BTCUSDT.P").phases =
      [0.25, 0.33, 0.50, 1.00] := rfl
  refine ⟨?_, ?_, ?_⟩
  · have hout : (bnc_trade initState envA "BTCUSDT.P" "OPEN_LONG").out = TOut.okResult := by
      rw [bnc_trade_OPEN_LONG_eq, hup]
      rw [if_neg (by decide), if_neg ?_]
      · rw [open_long_branch_all_ok _ _ _ _ _ _ rfl rfl rfl]
      · rw [hlegs0, hphases]
        norm_num [envA, split_phase, initState]
    exact C5_split_legs_lifecycle.1 initState envA "BTCUSDT.P" "OPEN_LONG" rfl (Or.inl rfl) hout
  · exact C5_split_legs_lifecycle.2.1 stFull envA "BTCUSDT.P" "OPEN_LONG" (Or.inl rfl) rfl
      (by decide) rfl
  · exact C5_split_legs_lifecycle.2.2 stFull envA "BTCUSDT.P" "CLOSE_LONG" (Or.inl rfl) rfl

/-- Shared fixture fact: from the initial state with envA, OPEN_LONG on
BTCUSDT.P succeeds. -/
theorem initA_open_long_ok :
    (bnc_trade initState envA "BTCUSDT.P" "OPEN_LONG").out = TOut.okResult := by
  have hup : strUpper "BTCUSDT.P" = "BTCUSDT.P" := by decide
  have hlegs0 : (effective_params initState "BTCUSDT.P").legs = 0 := rfl
  have hphases : (effective_params initState "BTCUSDT.P").phases =
      [0.25, 0.33, 0.50, 1.00] := rfl
  rw [bnc_trade_OPEN_LONG_eq, hup]
  rw [if_neg (by decide), if_neg ?_]
  · rw [open_long_branch_all_ok _ _ _ _ _ _ rfl rfl rfl]
  · rw [hlegs0, hphases]
    norm_num [envA, split_phase, initState]

/-- C3 amended: for every OPEN that reaches placement and succeeds, the
stop order's raw price is exactly entry*(1 ∓ sl/100) and the trailing
activation exactly entry*(1 ∓ act/100) (minus long, plus short), each
then only floored to the exchange tick; no minimum-gap floor is applied
to either distance. -/
theorem C3_protective_price_formulas :
    (∀ st env s, (bnc_trade st env s "OPEN_LONG").out = TOut.okResult →
      (bnc_trade st env s "OPEN_LONG").orders =
        [⟨"MARKET", normalize_binance_symbol (strUpper s), "BUY",
           tradeQty st env (strUpper s), false, none, none, none⟩,
         ⟨"STOP_MARKET", normalize_binance_symbol (strUpper s), "SELL",
           tradeQty st env (strUpper s), true,
           some (env.price * (1 - (effective_params st (strUpper s)).sl / 100)),
           some (format_price_for_symbol env.filters
             (env.price * (1 - (effective_params st (strUpper s)).sl / 100))), none⟩,
         ⟨"TRAILING_STOP_MARKET", normalize_binance_symbol (strUpper s), "SELL",
           tradeQty st env (strUpper s), true,
           some (env.price * (1 - (effective_params st (strUpper s)).trail.act / 100)),
           some (format_price_for_symbol env.filters
             (env.price * (1 - (effective_params st (strUpper s)).trail.act / 100))),
           some (effective_params st (strUpper s)).trail.cb⟩]) ∧
    (∀ st env s, (bnc_trade st env s "OPEN_SHORT").out = TOut.okResult →
      (bnc_trade st env s "OPEN_SHORT").orders =
        [⟨"MARKET", normalize_binance_symbol (strUpper s), "SELL",
           tradeQty st env (strUpper s), false, none, none, none⟩,
         ⟨"STOP_MARKET", normalize_binance_symbol (strUpper s), "BUY",
           tradeQty st env (strUpper s), true,
           some (env.price * (1 + (effective_params st (strUpper s)).sl / 100)),
           some (format_price_for_symbol env.filters
             (env.price * (1 + (effective_params st (strUpper s)).sl / 100))), none⟩,
         ⟨"TRAILING_STOP_MARKET", normalize_binance_symbol (strUpper s), "BUY",
           tradeQty st env (strUpper s), true,
           some (env.price * (1 + (effective_params st (strUpper s)).trail.act / 100)),
           some (format_price_for_symbol env.filters
             (env.price * (1 + (effective_params st (strUpper s)).trail.act / 100))),
           some (effective_params st (strUpper s)).trail.cb⟩]) := by
  constructor
  · intro st env s hout
    rw [bnc_trade_OPEN_LONG_eq] at hout ⊢
    by_cases hmode : allowed_by_mode st (strUpper s) "LONG" = false
    · rw [if_pos hmode] at hout
      simp at hout
    · rw [if_neg hmode] at hout ⊢
      by_cases halloc : env.avail * split_phase st.split_enabled
          (effective_params st (strUpper s)).legs (effective_params st (strUpper s)).phases ≤ 0
      · rw [if_pos halloc] at hout
        simp at hout
      · rw [if_neg halloc] at hout ⊢
        rw [open_long_branch_ok_inv _ _ _ _ _ _ hout]
  · intro st env s hout
    rw [bnc_trade_OPEN_SHORT_eq] at hout ⊢
    by_cases hmode : allowed_by_mode st (strUpper s) "SHORT" = false
    · rw [if_pos hmode] at hout
      simp at hout
    · rw [if_neg hmode] at hout ⊢
      by_cases halloc : env.avail * split_phase st.split_enabled
          (effective_params st (strUpper s)).legs (effective_params st (strUpper s)).phases ≤ 0
      · rw [if_pos halloc] at hout
        simp at hout
      · rw [if_neg halloc] at hout ⊢
        rw [open_short_branch_ok_inv _ _ _ _ _ _ hout]

/-- Witness for C3 on the successful OPEN_LONG fixture. -/
theorem C3_protective_price_formulas_witness :
    (bnc_trade initState envA "BTCUSDT.P" "OPEN_LONG").orders =
      [⟨"MARKET", "BTCUSDT", "BUY", tradeQty initState envA "BTCUSDT.P", false,
         none, none, none⟩,
       ⟨"STOP_MARKET", "BTCUSDT", "SELL", tradeQty initState envA "BTCUSDT.P", true,
         some (envA.price * (1 - (effective_params initState "BTCUSDT.P").sl / 100)),
         some (format_price_for_symbol envA.filters
           (envA.price * (1 - (effective_params initState "BTCUSDT.P").sl / 100))), none⟩,
       ⟨"TRAILING_STOP_MARKET", "BTCUSDT", "SELL", tradeQty initState envA "BTCUSDT.P", true,
         some (envA.price * (1 - (effective_params initState "BTCUSDT.P").trail.act / 100)),
         some (format_price_for_symbol envA.filters
           (envA.price * (1 - (effective_params initState "BTCUSDT.P").trail.act / 100))),
         some (effective_params initState "BTCUSDT.P").trail.cb⟩] :=
  C3_protective_price_formulas.1 initState envA "BTCUSDT.P" initA_open_long_ok

/-- A stored BTCUSDT with stop-loss 0.5% and split entry off. -/
def stHalf : BotState := ⟨"BOTH", false, [("BTCUSDT", ⟨none, none, some 0.5, none, none, none⟩)]⟩

/-- Counterexample for C3's minimum-gap clause: with a configured 0.5%
stop-loss, the stop price of a LONG at 50000 is 49750 — strictly closer
to the entry price than the claimed 1.0% minimum gap; no floor is
enforced anywhere in the handler. -/
theorem C3_min_gap_counterexample :
    ((bnc_trade stHalf envA "BTCUSDT" "OPEN_LONG").orders.getD 1 default).priceRaw =
      some 49750 ∧
    envA.price - 49750 < envA.price * (1 / 100) := by
  have hup : strUpper "BTCUSDT" = "BTCUSDT" := by decide
  have hlegs0 : (effective_params stHalf "BTCUSDT").legs = 0 := rfl
  have hsl : (effective_params stHalf "BTCUSDT").sl = 0.5 := by
    have h1 : (effective_params stHalf "BTCUSDT").sl =
        (if (0.5 : ℚ) = 0 then (presetOf "normal").sl else 0.5) := rfl
    rw [h1]
    norm_num
  constructor
  · rw [bnc_trade_OPEN_LONG_eq, hup]
    rw [if_neg (by decide), if_neg ?_]
    · rw [open_long_branch_all_ok _ _ _ _ _ _ rfl rfl rfl]
      have h2 : normalize_binance_symbol "BTCUSDT" = "BTCUSDT" := by decide
      simp only [List.getD, List.get?, Option.getD]
      rw [hsl]
      norm_num [envA]
    · rw [hlegs0]
      norm_num [envA, split_phase, stHalf]
  · norm_num [envA]

/-- Any env with 1000 USDT available clears the allocation gate for a
fresh BTCUSDT.P (leg 0, normal preset, phase 0.25). -/
theorem initA_alloc_pos (env : ExchangeEnv) (h : env.avail = 1000) :
    ¬ env.avail * split_phase initState.split_enabled
        (effective_params initState "BTCUSDT.P").legs
        (effective_params initState "BTCUSDT.P").phases ≤ 0 := by
  have hl : (effective_params initState "BTCUSDT.P").legs = 0 := rfl
  have hp : (effective_params initState "BTCUSDT.P").phases = [0.25, 0.33, 0.50, 1.00] := rfl
  rw [h, hl, hp]
  norm_num [split_phase, initState]

/-- C2 amended: when the market entry succeeds and the stop-market (or
trailing-stop) placement fails, the handler places nothing further: the
entry is neither retried nor unwound (no further market order, no
reduce-only order), the legs counter is not advanced (state unchanged),
and no confirmation or alert message is attempted — the exception
propagates to the route-level handler as the same generic error outcome
produced by any other failure. -/
theorem C2_unprotected_entry_behavior :
    (∀ st env s, env.openOk = true → env.stopOk = false →
      (bnc_trade st env s "OPEN_LONG").out = TOut.exnError →
      (bnc_trade st env s "OPEN_LONG").orders =
        [⟨"MARKET", normalize_binance_symbol (strUpper s), "BUY",
          tradeQty st env (strUpper s), false, none, none, none⟩] ∧
      (bnc_trade st env s "OPEN_LONG").notified = false ∧
      (bnc_trade st env s "OPEN_LONG").state = st) ∧
    (∀ st env s, env.openOk = true → env.stopOk = true → env.trailOk = false →
      (bnc_trade st env s "OPEN_LONG").out = TOut.exnError →
      (bnc_trade st env s "OPEN_LONG").orders =
        [⟨"MARKET", normalize_binance_symbol (strUpper s), "BUY",
          tradeQty st env (strUpper s), false, none, none, none⟩,
         ⟨"STOP_MARKET", normalize_binance_symbol (strUpper s), "SELL",
          tradeQty st env (strUpper s), true,
          some (env.price * (1 - (effective_params st (strUpper s)).sl / 100)),
          some (format_price_for_symbol env.filters
            (env.price * (1 - (effective_params st (strUpper s)).sl / 100))), none⟩] ∧
      (bnc_trade st env s "OPEN_LONG").notified = false ∧
      (bnc_trade st env s "OPEN_LONG").state = st) ∧
    (∀ st env s, env.openOk = true → env.stopOk = false →
      (bnc_trade st env s "OPEN_SHORT").out = TOut.exnError →
      (bnc_trade st env s "OPEN_SHORT").orders =
        [⟨"MARKET", normalize_binance_symbol (strUpper s), "SELL",
          tradeQty st env (strUpper s), false, none, none, none⟩] ∧
      (bnc_trade st env s "OPEN_SHORT").notified = false ∧
      (bnc_trade st env s "OPEN_SHORT").state = st) ∧
    (∀ st env s, env.openOk = true → env.stopOk = true → env.trailOk = false →
      (bnc_trade st env s "OPEN_SHORT").out = TOut.exnError →
      (bnc_trade st env s "OPEN_SHORT").notified = false ∧
      (bnc_trade st env s "OPEN_SHORT").state = st) := by
  refine ⟨?_, ?_, ?_, ?_⟩
  · intro st env s h1 h2 hout
    rw [bnc_trade_OPEN_LONG_eq] at hout ⊢
    by_cases hmode : allowed_by_mode st (strUpper s) "LONG" = false
    · rw [if_pos hmode] at hout
      simp at hout
    · rw [if_neg hmode] at hout ⊢
      by_cases halloc : env.avail * split_phase st.split_enabled
          (effective_params st (strUpper s)).legs (effective_params st (strUpper s)).phases ≤ 0
      · rw [if_pos halloc] at hout
        simp at hout
      · rw [if_neg halloc, open_long_branch_stop_fail _ _ _ _ _ _ h1 h2]
        exact ⟨rfl, rfl, rfl⟩
  · intro st env s h1 h2 h3 hout
    rw [bnc_trade_OPEN_LONG_eq] at hout ⊢
    by_cases hmode : allowed_by_mode st (strUpper s) "LONG" = false
    · rw [if_pos hmode] at hout
      simp at hout
    · rw [if_neg hmode] at hout ⊢
      by_cases halloc : env.avail * split_phase st.split_enabled
          (effective_params st (strUpper s)).legs (effective_params st (strUpper s)).phases ≤ 0
      · rw [if_pos halloc] at hout
        simp at hout
      · rw [if_neg halloc, open_long_branch_trail_fail _ _ _ _ _ _ h1 h2 h3]
        exact ⟨rfl, rfl, rfl⟩
  · intro st env s h1 h2 hout
    rw [bnc_trade_OPEN_SHORT_eq] at hout ⊢
    by_cases hmode : allowed_by_mode st (strUpper s) "SHORT" = false
    · rw [if_pos hmode] at hout
      simp at hout
    · rw [if_neg hmode] at hout ⊢
      by_cases halloc : env.avail * split_phase st.split_enabled
          (effective_params st (strUpper s)).legs (effective_params st (strUpper s)).phases ≤ 0
      · rw [if_pos halloc] at hout
        simp at hout
      · rw [if_neg halloc, open_short_branch_stop_fail _ _ _ _ _ _ h1 h2]
        exact ⟨rfl, rfl, rfl⟩
  · intro st env s h1 h2 h3 hout
    rw [bnc_trade_OPEN_SHORT_eq] at hout ⊢
    by_cases hmode : allowed_by_mode st (strUpper s) "SHORT" = false
    · rw [if_pos hmode] at hout
      simp at hout
    · rw [if_neg hmode] at hout ⊢
      by_cases halloc : env.avail * split_phase st.split_enabled
          (effective_params st (strUpper s)).legs (effective_params st (strUpper s)).phases ≤ 0
      · rw [if_pos halloc] at hout
        simp at hout
      · rw [if_neg halloc, open_short_branch_trail_fail _ _ _ _ _ _ h1 h2 h3]
        exact ⟨rfl, rfl⟩

/-- envA with the stop-market call failing. -/
def envStopFail : ExchangeEnv := ⟨50000, 1000, ⟨0.001, 0.001, 0.01⟩, true, false, true⟩

/-- envA with the entry call itself failing. -/
def envEntryFail : ExchangeEnv := ⟨50000, 1000, ⟨0.001, 0.001, 0.01⟩, false, true, true⟩

/-- Counterexample for C2: on a concrete OPEN_LONG whose entry fills and
whose stop placement fails, the handler attempts no notification and
produces exactly the same generic outcome (`exnError`, notified =
false) as an ordinary run whose entry itself fails — nothing distinct
or high-priority marks the unprotected-position case. -/
theorem C2_no_distinct_alert_counterexample :
    (bnc_trade initState envStopFail "BTCUSDT.P" "OPEN_LONG").out = TOut.exnError ∧
    (bnc_trade initState envStopFail "BTCUSDT.P" "OPEN_LONG").notified = false ∧
    (bnc_trade initState envStopFail "BTCUSDT.P" "OPEN_LONG").orders.length = 1 ∧
    (bnc_trade initState envEntryFail "BTCUSDT.P" "OPEN_LONG").out = TOut.exnError ∧
    (bnc_trade initState envEntryFail "BTCUSDT.P" "OPEN_LONG").notified = false := by
  have hup : strUpper "BTCUSDT.P" = "BTCUSDT.P" := by decide
  have hrun1 : bnc_trade initState envStopFail "BTCUSDT.P" "OPEN_LONG" =
      ⟨TOut.exnError,
       [⟨"MARKET", normalize_binance_symbol "BTCUSDT.P", "BUY",
         tradeQty initState envStopFail "BTCUSDT.P", false, none, none, none⟩],
       false, initState⟩ := by
    rw [bnc_trade_OPEN_LONG_eq, hup, if_neg (by decide),
      if_neg (initA_alloc_pos envStopFail rfl),
      open_long_branch_stop_fail _ _ _ _ _ _ rfl rfl]
  have hrun2 : bnc_trade initState envEntryFail "BTCUSDT.P" "OPEN_LONG" =
      ⟨TOut.exnError, [], false, initState⟩ := by
    rw [bnc_trade_OPEN_LONG_eq, hup, if_neg (by decide),
      if_neg (initA_alloc_pos envEntryFail rfl),
      open_long_branch_entry_fail _ _ _ _ _ _ rfl]
  rw [hrun1, hrun2]
  exact ⟨rfl, rfl, rfl, rfl, rfl⟩

/-- Witness for C2 on the concrete stop-failure run. -/
theorem C2_unprotected_entry_behavior_witness :
    (bnc_trade initState envStopFail "BTCUSDT.P" "OPEN_LONG").orders =
      [⟨"MARKET", "BTCUSDT", "BUY", tradeQty initState envStopFail "BTCUSDT.P",
        false, none, none, none⟩] ∧
    (bnc_trade initState envStopFail "BTCUSDT.P" "OPEN_LONG").notified = false ∧
    (bnc_trade initState envStopFail "BTCUSDT.P" "OPEN_LONG").state = initState := by
  have hup : strUpper "BTCUSDT.P" = "BTCUSDT.P" := by decide
  have hout : (bnc_trade initState envStopFail "BTCUSDT.P" "OPEN_LONG").out = TOut.exnError := by
    rw [bnc_trade_OPEN_LONG_eq, hup, if_neg (by decide),
      if_neg (initA_alloc_pos envStopFail rfl),
      open_long_branch_stop_fail _ _ _ _ _ _ rfl rfl]
  exact C2_unprotected_entry_behavior.1 initState envStopFail "BTCUSDT.P" rfl rfl hout

theorem open_long_branch_orders_symbol (st : BotState) (env : ExchangeEnv) (u b : String)
    (ep : EffParams) (q : ℚ) :
    ∀ o ∈ (open_long_branch st env u b ep q).orders, o.symbol = b := by
  unfold open_long_branch
  split_ifs <;> simp

theorem open_short_branch_orders_symbol (st : BotState) (env : ExchangeEnv) (u b : String)
    (ep : EffParams) (q : ℚ) :
    ∀ o ∈ (open_short_branch st env u b ep q).orders, o.symbol = b := by
  unfold open_short_branch
  split_ifs <;> simp

theorem close_branch_orders_symbol (st : BotState) (env : ExchangeEnv) (u b a : String) :
    ∀ o ∈ (close_branch st env u b a).orders, o.symbol = b := by
  unfold close_branch
  split_ifs <;> simp

theorem bnc_trade_orders_symbol (st : BotState) (env : ExchangeEnv) (s a : String) :
    ∀ o ∈ (bnc_trade st env s a).orders, o.symbol = normalize_binance_symbol (strUpper s) := by
  simp only [bnc_trade]
  split_ifs
  all_goals
    first
      | simp
      | exact open_long_branch_orders_symbol _ _ _ _ _ _
      | exact open_short_branch_orders_symbol _ _ _ _ _ _
      | exact close_branch_orders_symbol _ _ _ _ _

theorem get_pair_cfg_save_other (st : BotState) (u : String) (p : PairStored) (k : String)
    (h : k ≠ u) : get_pair_cfg (save_pair_cfg st u p) k = get_pair_cfg st k := by
  simp [get_pair_cfg, save_pair_cfg, alookup_aset_ne _ _ _ _ (Ne.symm h)]

/-- C10: per-symbol configuration and leg state are keyed by the
uppercased raw symbol while every order targets the normalized symbol;
two raw spellings that normalize to the same exchange symbol keep fully
independent configurations and leg counters. -/
theorem C10_symbol_keying :
    (normalize_binance_symbol "BTCUSDT.P" = "BTCUSDT" ∧
     normalize_binance_symbol "BTCUSDT" = "BTCUSDT" ∧
     ("BTCUSDT.P" : String) ≠ "BTCUSDT") ∧
    (∀ st env s a k, k ≠ strUpper s →
      get_pair_cfg (bnc_trade st env s a).state k = get_pair_cfg st k) ∧
    (∀ st env s a k, k ≠ strUpper s →
      effective_params (bnc_trade st env s a).state k = effective_params st k) ∧
    (∀ st env s a o, o ∈ (bnc_trade st env s a).orders →
      o.symbol = normalize_binance_symbol (strUpper s)) := by
  refine ⟨by decide, ?_, ?_, ?_⟩
  · intro st env s a k hk
    rcases bnc_trade_state_cases st env s a with h1 | ⟨n, _, h1⟩ <;> rw [h1]
    exact get_pair_cfg_save_other st (strUpper s) (legsOnly n) k hk
  · intro st env s a k hk
    have hg : get_pair_cfg (bnc_trade st env s a).state k = get_pair_cfg st k := by
      rcases bnc_trade_state_cases st env s a with h1 | ⟨n, _, h1⟩ <;> rw [h1]
      exact get_pair_cfg_save_other st (strUpper s) (legsOnly n) k hk
    simp [effective_params, hg]
  · intro st env s a o ho
    exact bnc_trade_orders_symbol st env s a o ho

/-- Witness for C10: an OPEN_LONG on "BTCUSDT.P" leaves the separate
"BTCUSDT" configuration untouched, and its orders target "BTCUSDT". -/
theorem C10_symbol_keying_witness :
    get_pair_cfg (bnc_trade initState envA "BTCUSDT.P" "OPEN_LONG").state "BTCUSDT" =
      get_pair_cfg initState "BTCUSDT" ∧
    effective_params (bnc_trade initState envA "BTCUSDT.P" "OPEN_LONG").state "BTCUSDT" =
      effective_params initState "BTCUSDT" :=
  ⟨C10_symbol_keying.2.1 initState envA "BTCUSDT.P" "OPEN_LONG" "BTCUSDT" (by decide),
   C10_symbol_keying.2.2.1 initState envA "BTCUSDT.P" "OPEN_LONG" "BTCUSDT" (by decide)⟩

/-- A pair stored with risk preset "safe" and no explicit stop-loss or
trailing keys. -/
def stSafeBare : BotState :=
  ⟨"BOTH", true, [("ETHUSDT.P", ⟨none, none, none, none, none, some "safe"⟩)]⟩

/-- Counterexample for C4: a symbol on risk preset "safe" with no
explicit stop-loss/trailing gets the get_pair_cfg defaults sl = 1.0 and
trail = {act 0.6, cb 0.2}, not the preset's 1.5 / {1.5, 0.4} — the
preset is consulted only when the configured value is falsy, not when
the key is absent. -/
theorem C4_preset_fallback_counterexample :
    (effective_params stSafeBare "ETHUSDT.P").risk = "safe" ∧
    (effective_params stSafeBare "ETHUSDT.P").sl = 1.0 ∧
    (effective_params stSafeBare "ETHUSDT.P").trail = ⟨0.6, 0.2⟩ ∧
    ¬ ((effective_params stSafeBare "ETHUSDT.P").sl = 1.5 ∧
       (effective_params stSafeBare "ETHUSDT.P").trail = ⟨1.5, 0.4⟩) := by
  have hrisk : (effective_params stSafeBare "ETHUSDT.P").risk = "safe" := rfl
  have htrail : (effective_params stSafeBare "ETHUSDT.P").trail = ⟨0.6, 0.2⟩ := rfl
  have hsl : (effective_params stSafeBare "ETHUSDT.P").sl =
      (if (1.0 : ℚ) = 0 then (presetOf "safe").sl else 1.0) := rfl
  have hsl2 : (effective_params stSafeBare "ETHUSDT.P").sl = 1.0 := by
    rw [hsl]
    norm_num
  refine ⟨hrisk, hsl2, htrail, ?_⟩
  rw [hsl2]
  norm_num

/-- C4 amended: get_pair_cfg fills absent stop-loss/trailing keys with
the fixed defaults 1.0 and {act 0.6, cb 0.2}; effective_params then
falls back to the risk preset only when the configured value is falsy
(sl = 0, or the empty trailing dict), while any nonzero explicit value
overrides; the phase list always comes from the preset. -/
theorem C4_effective_param_resolution :
    (∀ st sym, (get_pair_cfg st sym).sl ≠ 0 →
      (effective_params st sym).sl = (get_pair_cfg st sym).sl) ∧
    (∀ st sym, (get_pair_cfg st sym).sl = 0 →
      (effective_params st sym).sl = (presetOf (get_pair_cfg st sym).risk).sl) ∧
    (∀ st sym d, alookup st.pairs sym = some d → d.sl = none →
      (effective_params st sym).sl = 1.0) ∧
    (∀ st sym c, (get_pair_cfg st sym).trail = TrailVal.full c →
      (effective_params st sym).trail = c) ∧
    (∀ st sym, (get_pair_cfg st sym).trail = TrailVal.empty →
      (effective_params st sym).trail = (presetOf (get_pair_cfg st sym).risk).trail) ∧
    (∀ st sym d, alookup st.pairs sym = some d → d.trail = none →
      (effective_params st sym).trail = ⟨0.6, 0.2⟩) ∧
    (∀ st sym, (effective_params st sym).phases = (presetOf (get_pair_cfg st sym).risk).phases) := by
  refine ⟨?_, ?_, ?_, ?_, ?_, ?_, ?_⟩
  · intro st sym h
    simp [effective_params, h, presetOf]
  · intro st sym h
    simp [effective_params, h, presetOf]
  · intro st sym d hd hsl
    have h1 : (get_pair_cfg st sym).sl = 1.0 := by
      simp [get_pair_cfg, hd, hsl]
    have h2 : (effective_params st sym).sl =
        (if (get_pair_cfg st sym).sl = 0 then (presetOf (get_pair_cfg st sym).risk).sl
         else (get_pair_cfg st sym).sl) := rfl
    rw [h2, h1]
    norm_num
  · intro st sym c hc
    have h2 : (effective_params st sym).trail =
        (match (get_pair_cfg st sym).trail with
         | TrailVal.empty => (presetOf (get_pair_cfg st sym).risk).trail
         | TrailVal.full c => c) := rfl
    rw [h2, hc]
  · intro st sym hc
    have h2 : (effective_params st sym).trail =
        (match (get_pair_cfg st sym).trail with
         | TrailVal.empty => (presetOf (get_pair_cfg st sym).risk).trail
         | TrailVal.full c => c) := rfl
    rw [h2, hc]
  · intro st sym d hd htr
    have h1 : (get_pair_cfg st sym).trail = TrailVal.full ⟨0.6, 0.2⟩ := by
      simp [get_pair_cfg, hd, htr]
    have h2 : (effective_params st sym).trail =
        (match (get_pair_cfg st sym).trail with
         | TrailVal.empty => (presetOf (get_pair_cfg st sym).risk).trail
         | TrailVal.full c => c) := rfl
    rw [h2, h1]
  · intro st sym
    rfl

/-- Witness for C4 on the bare "safe" record: absent keys resolve to
the fixed defaults and the phase list to the preset's. -/
theorem C4_effective_param_resolution_witness :
    (effective_params stSafeBare "ETHUSDT.P").sl = 1.0 ∧
    (effective_params stSafeBare "ETHUSDT.P").trail = ⟨0.6, 0.2⟩ ∧
    (effective_params stSafeBare "ETHUSDT.P").phases =
      (presetOf (get_pair_cfg stSafeBare "ETHUSDT.P").risk).phases :=
  ⟨C4_effective_param_resolution.2.2.1 stSafeBare "ETHUSDT.P"
      ⟨none, none, none, none, none, some "safe"⟩ rfl rfl,
   C4_effective_param_resolution.2.2.2.2.2.1 stSafeBare "ETHUSDT.P"
      ⟨none, none, none, none, none, some "safe"⟩ rfl rfl,
   C4_effective_param_resolution.2.2.2.2.2.2 stSafeBare "ETHUSDT.P"⟩

/-- C6 amended: each signed exchange call performs exactly one HTTP
request with no retry of any kind — its outcome is independent of every
response after the first; any non-200 status (5xx and 429 included)
raises immediately, carrying the status and the exchange's response
body verbatim; a network failure propagates; the POST helper behaves
identically to the GET helper. -/
theorem C6_client_single_attempt :
    (∀ r rest, _binance_get (r :: rest) = _binance_get [r]) ∧
    (∀ r rest, r.status ≠ 200 →
      _binance_get (r :: rest) = BinanceResult.httpError r.status r.body) ∧
    (∀ t, _binance_post t = _binance_get t) ∧
    _binance_get [] = BinanceResult.netError := by
  refine ⟨fun r rest => rfl, ?_, ?_, rfl⟩
  · intro r rest h
    simp [_binance_get, h]
  · intro t
    cases t <;> rfl

/-- Witness for C6: a 500 then a 429, each followed by a response that a
retry would have reached, fail immediately with the first status. -/
theorem C6_client_single_attempt_witness :
    _binance_get [⟨500, "down"⟩, ⟨200, "recovered"⟩] =
      BinanceResult.httpError 500 "down" ∧
    _binance_get [⟨429, "rate"⟩, ⟨200, "recovered"⟩] =
      BinanceResult.httpError 429 "rate" :=
  ⟨C6_client_single_attempt.2.1 ⟨500, "down"⟩ [⟨200, "recovered"⟩] (by decide),
   C6_client_single_attempt.2.1 ⟨429, "rate"⟩ [⟨200, "recovered"⟩] (by decide)⟩

/-- Counterexample for C6: transports on which any retry (the claim
allows up to 5 attempts) would succeed, yet one 5xx or 429 — and, for
the POST helper, a 503 — fails the call outright on the first response:
nothing is ever retried and no retry-after instruction is read. -/
theorem C6_no_retry_counterexample :
    _binance_get [⟨500, "oops"⟩, ⟨200, "fine"⟩, ⟨200, "fine"⟩, ⟨200, "fine"⟩, ⟨200, "fine"⟩] =
      BinanceResult.httpError 500 "oops" ∧
    _binance_get [⟨429, "retry-after: 1"⟩, ⟨200, "fine"⟩] =
      BinanceResult.httpError 429 "retry-after: 1" ∧
    _binance_post [⟨503, "unavailable"⟩, ⟨200, "fine"⟩] =
      BinanceResult.httpError 503 "unavailable" := by
  exact ⟨by decide, by decide, by decide⟩

/-- C9 amended: the quantized quantity is the floored-to-step value
raised to minQty, hence never below minQty; with a usable (positive)
step it is a multiple of the step whenever minQty itself is one; it can
be 0 only when minQty is unusable (≤ 0) — even with a perfectly usable
step. -/
theorem C9_quantize_bounds :
    (∀ f : SymbolFilters, ∀ q : ℚ, f.minQty ≤ quantize_qty_for_symbol f q) ∧
    (∀ f : SymbolFilters, ∀ q : ℚ, 0 < f.stepSize → (∃ k : ℤ, f.minQty = k * f.stepSize) →
      ∃ k : ℤ, quantize_qty_for_symbol f q = k * f.stepSize) ∧
    (∀ f : SymbolFilters, ∀ q : ℚ, 0 < f.minQty → quantize_qty_for_symbol f q ≠ 0) ∧
    (∀ f : SymbolFilters, ∀ q : ℚ, quantize_qty_for_symbol f q = 0 → f.minQty ≤ 0) := by
  refine ⟨?_, ?_, ?_, ?_⟩
  · intro f q
    exact le_max_right _ _
  · intro f q hstep hm
    rcases hm with ⟨k, hk⟩
    rw [quantize_qty_for_symbol, round_to_step, if_neg (not_le.mpr hstep)]
    rcases le_total ((⌊q / f.stepSize⌋ : ℚ) * f.stepSize) f.minQty with h | h
    · exact ⟨k, by rw [max_eq_right h, hk]⟩
    · exact ⟨⌊q / f.stepSize⌋, by rw [max_eq_left h]⟩
  · intro f q hmin
    exact ne_of_gt (lt_of_lt_of_le hmin (le_max_right _ _))
  · intro f q h
    have := le_max_right (round_to_step q f.stepSize) f.minQty
    rw [quantize_qty_for_symbol] at h
    rw [h] at this
    exact this

/-- Witness for C9 with BTC-like filters (step 0.001, min 0.001). -/
theorem C9_quantize_bounds_witness :
    ((0.001 : ℚ) ≤ quantize_qty_for_symbol ⟨0.001, 0.001, 0.01⟩ 0.0057) ∧
    quantize_qty_for_symbol ⟨0.001, 0.001, 0.01⟩ 0.0057 ≠ 0 :=
  ⟨C9_quantize_bounds.1 ⟨0.001, 0.001, 0.01⟩ 0.0057,
   C9_quantize_bounds.2.2.1 ⟨0.001, 0.001, 0.01⟩ 0.0057 (by norm_num)⟩

/-- Filters with a usable lot step but minQty 0 (the source's default
when the filter carries no minQty). -/
def filtersBare : SymbolFilters := ⟨0.001, 0, 0.01⟩

/-- envA with tiny available balance and no minimum quantity. -/
def envBare : ExchangeEnv := ⟨50000, 0.01, filtersBare, true, true, true⟩

/-- Counterexample for C9: with a perfectly usable step (0.001 > 0) and
an unusable minQty, a positive raw quantity below one step quantizes to
0 — refuting "returns 0 only if both step and min are unusable" — and
the trade handler performs no zero check: the run succeeds and places a
market order with quantity 0 instead of failing the sizing. -/
theorem C9_zero_qty_counterexample :
    (0 : ℚ) < 0.0005 ∧ (0 : ℚ) < filtersBare.stepSize ∧
    quantize_qty_for_symbol filtersBare 0.0005 = 0 ∧
    (bnc_trade initState envBare "BTCUSDT" "OPEN_LONG").out = TOut.okResult ∧
    ((bnc_trade initState envBare "BTCUSDT" "OPEN_LONG").orders.getD 0 default).qty = 0 ∧
    ((bnc_trade initState envBare "BTCUSDT" "OPEN_LONG").orders.getD 0 default).otype =
      "MARKET" := by
  have hup : strUpper "BTCUSDT" = "BTCUSDT" := by decide
  have hl : (effective_params initState "BTCUSDT").legs = 0 := rfl
  have hp : (effective_params initState "BTCUSDT").phases = [0.25, 0.33, 0.50, 1.00] := rfl
  have hlev : (effective_params initState "BTCUSDT").lev = 10 := rfl
  have hq : tradeQty initState envBare "BTCUSDT" = 0 := by
    rw [tradeQty, hl, hp, hlev]
    have hphase : split_phase initState.split_enabled 0 [0.25, 0.33, 0.50, 1.00] = 0.25 := by
      norm_num [split_phase, initState]
    rw [hphase]
    show max (round_to_step _ _) _ = 0
    rw [round_to_step, if_neg (by norm_num [envBare, filtersBare])]
    norm_num [envBare, filtersBare]
  have hrun : bnc_trade initState envBare "BTCUSDT" "OPEN_LONG" =
      open_long_branch initState envBare "BTCUSDT" (normalize_binance_symbol "BTCUSDT")
        (effective_params initState "BTCUSDT") (tradeQty initState envBare "BTCUSDT") := by
    rw [bnc_trade_OPEN_LONG_eq, hup, if_neg (by decide), if_neg ?_]
    rw [hl, hp]
    norm_num [split_phase, initState, envBare]
  rw [hrun, open_long_branch_all_ok _ _ _ _ _ _ rfl rfl rfl, hq]
  refine ⟨by norm_num, by norm_num [filtersBare], ?_, rfl, rfl, rfl⟩
  show max (round_to_step _ _) _ = 0
  rw [round_to_step, if_neg (by norm_num [filtersBare])]
  norm_num [filtersBare]

/-! ## C8: anti-spam gate -/

/-- C8: within COOLDOWN_SEC of the last accepted send for a bucket,
every request for that bucket is suppressed, whatever its content;
after the cooldown, a bucket/content pair recorded within
DEDUP_WINDOW_SEC is still suppressed; and two requests for the same
bucket more than the cooldown apart with different content are both
admitted and sent. -/
theorem C8_antispam_gate :
    (∀ sigf routeChat (s : SpamState) (t t0 : ℚ) route msg symbol tgOk chat,
      route ≠ "" → msg ≠ "" → routeChat route = some chat →
      alookup s.lastSentAt (_bucket_key sigf chat symbol route msg) = some t0 →
      t - t0 < COOLDOWN_SEC →
      _handle_payload sigf routeChat s t route msg symbol tgOk =
        (HandleOut.skippedCooldown, s)) ∧
    (∀ sigf routeChat (s : SpamState) (t t1 : ℚ) route msg symbol tgOk chat,
      route ≠ "" → msg ≠ "" → routeChat route = some chat →
      _can_send_now s t (_bucket_key sigf chat symbol route msg) = true →
      alookup s.recentMsg (_bucket_key sigf chat symbol route msg, safe_text msg) = some t1 →
      t - t1 < DEDUP_WINDOW_SEC →
      _handle_payload sigf routeChat s t route msg symbol tgOk =
        (HandleOut.skippedDedup, s)) ∧
    (∀ sigf routeChat (s : SpamState) (t0 t1 : ℚ) route msg1 msg2 symbol chat,
      route ≠ "" → msg1 ≠ "" → msg2 ≠ "" → routeChat route = some chat →
      sigf msg1 = sigf msg2 →
      safe_text msg1 ≠ safe_text msg2 →
      alookup s.lastSentAt (_bucket_key sigf chat symbol route msg1) = none →
      alookup s.recentMsg (_bucket_key sigf chat symbol route msg1, safe_text msg1) = none →
      alookup s.recentMsg (_bucket_key sigf chat symbol route msg1, safe_text msg2) = none →
      t0 + COOLDOWN_SEC < t1 →
      (_handle_payload sigf routeChat s t0 route msg1 symbol (some true)).1 =
        HandleOut.sent ∧
      (_handle_payload sigf routeChat
          (_handle_payload sigf routeChat s t0 route msg1 symbol (some true)).2
          t1 route msg2 symbol (some true)).1 = HandleOut.sent) := by
  refine ⟨?_, ?_, ?_⟩
  · intro sigf routeChat s t t0 route msg symbol tgOk chat hroute hmsg hchat hlast hcool
    have hfalse : _can_send_now s t (_bucket_key sigf chat symbol route msg) = false := by
      simp only [_can_send_now, hlast]
      exact decide_eq_false (not_le.mpr hcool)
    simp only [_handle_payload, if_neg (show ¬(route = "" ∨ msg = "") by simp [hroute, hmsg]),
      hchat]
    rw [if_pos hfalse]
  · intro sigf routeChat s t t1 route msg symbol tgOk chat hroute hmsg hchat hcan hdup hwin
    have hd : _is_duplicate s t (_bucket_key sigf chat symbol route msg) (safe_text msg) =
        (true, s) := by
      simp only [_is_duplicate, hdup]
      rw [if_pos hwin]
    simp only [_handle_payload, if_neg (show ¬(route = "" ∨ msg = "") by simp [hroute, hmsg]),
      hchat]
    rw [if_neg (by simp [hcan]), hd]
  · intro sigf routeChat s t0 t1 route msg1 msg2 symbol chat hroute hm1 hm2 hchat hsig
      hmsgne hlastB hrec1 hrec2 hgap
    have hbucket : _bucket_key sigf chat symbol route msg2 =
        _bucket_key sigf chat symbol route msg1 := by
      simp [_bucket_key, hsig]
    have hcan1 : _can_send_now s t0 (_bucket_key sigf chat symbol route msg1) = true := by
      simp only [_can_send_now, hlastB]
    have hd1 : _is_duplicate s t0 (_bucket_key sigf chat symbol route msg1) (safe_text msg1) =
        (false, _dedup_record s t0 (_bucket_key sigf chat symbol route msg1, safe_text msg1)) := by
      simp only [_is_duplicate, hrec1]
    have hstep1 : _handle_payload sigf routeChat s t0 route msg1 symbol (some true) =
        (HandleOut.sent,
         _mark_sent (_dedup_record s t0 (_bucket_key sigf chat symbol route msg1, safe_text msg1))
           t0 (_bucket_key sigf chat symbol route msg1)) := by
      simp only [_handle_payload, if_neg (show ¬(route = "" ∨ msg1 = "") by simp [hroute, hm1]),
        hchat]
      rw [if_neg (by simp [hcan1]), hd1]
    have hne : (_bucket_key sigf chat symbol route msg1, safe_text msg1) ≠
        (_bucket_key sigf chat symbol route msg1, safe_text msg2) := by
      simp [hmsgne]
    have haset : alookup
        (aset s.recentMsg (_bucket_key sigf chat symbol route msg1, safe_text msg1) t0)
        (_bucket_key sigf chat symbol route msg1, safe_text msg2) = none := by
      rw [alookup_aset_ne _ _ _ _ hne]
      exact hrec2
    have hrecAfter : alookup
        (_mark_sent (_dedup_record s t0 (_bucket_key sigf chat symbol route msg1, safe_text msg1))
          t0 (_bucket_key sigf chat symbol route msg1)).recentMsg
        (_bucket_key sigf chat symbol route msg1, safe_text msg2) = none := by
      simp only [_mark_sent, _dedup_record]
      by_cases hc : (s.opcount + 1) % _CLEAN_EVERY = 0
      · rw [if_pos hc]
        exact alookup_filter_none _ _ _ haset
      · rw [if_neg hc]
        exact haset
    have hcan2 : _can_send_now
        (_mark_sent (_dedup_record s t0 (_bucket_key sigf chat symbol route msg1, safe_text msg1))
          t0 (_bucket_key sigf chat symbol route msg1)) t1
        (_bucket_key sigf chat symbol route msg1) = true := by
      simp only [_can_send_now, _mark_sent, _dedup_record, alookup_aset_self]
      exact decide_eq_true (by linarith)
    have hd2 : _is_duplicate
        (_mark_sent (_dedup_record s t0 (_bucket_key sigf chat symbol route msg1, safe_text msg1))
          t0 (_bucket_key sigf chat symbol route msg1)) t1
        (_bucket_key sigf chat symbol route msg1) (safe_text msg2) =
        (false, _dedup_record
          (_mark_sent (_dedup_record s t0 (_bucket_key sigf chat symbol route msg1, safe_text msg1))
            t0 (_bucket_key sigf chat symbol route msg1)) t1
          (_bucket_key sigf chat symbol route msg1, safe_text msg2)) := by
      simp only [_is_duplicate, hrecAfter]
    constructor
    · rw [hstep1]
    · rw [hstep1]
      simp only [_handle_payload, if_neg (show ¬(route = "" ∨ msg2 = "") by simp [hroute, hm2]),
        hchat, hbucket]
      rw [if_neg (by simp [hcan2]), hd2]

/-- A constant signature function (two messages differing only in
digits collapse to one signature, hence one bucket). -/
def sigConst : String → String := fun _ => "5m:abc123"

/-- A one-route chat map. -/
def routeOne : String → Option String := fun r => if r = "OS_LONG" then some "777" else none

/-- Spam state with one accepted send at time 0 in the bucket of "m1". -/
def spamA : SpamState :=
  ⟨[(_bucket_key sigConst "777" "BTCUSDT" "OS_LONG" "m1", 0)], [], 0⟩

/-- Spam state with one recorded content hash at time 0, no accepted send. -/
def spamB : SpamState :=
  ⟨[], [((_bucket_key sigConst "777" "BTCUSDT" "OS_LONG" "m1", safe_text "m1"), 0)], 0⟩

/-- Witness for C8: 30s after an accepted send, a different message in
the same bucket is cooldown-suppressed; with cooldown clear, a repeat
of a recorded content hash is dedup-suppressed; and two different
messages in one bucket 100s apart are both sent. -/
theorem C8_antispam_gate_witness :
    _handle_payload sigConst routeOne spamA 30 "OS_LONG" "m2" "BTCUSDT" (some true) =
      (HandleOut.skippedCooldown, spamA) ∧
    _handle_payload sigConst routeOne spamB 30 "OS_LONG" "m1" "BTCUSDT" (some true) =
      (HandleOut.skippedDedup, spamB) ∧
    ((_handle_payload sigConst routeOne initSpam 0 "OS_LONG" "m1" "BTCUSDT" (some true)).1 =
        HandleOut.sent ∧
      (_handle_payload sigConst routeOne
          (_handle_payload sigConst routeOne initSpam 0 "OS_LONG" "m1" "BTCUSDT" (some true)).2
          100 "OS_LONG" "m2" "BTCUSDT" (some true)).1 = HandleOut.sent) :=
  ⟨C8_antispam_gate.1 sigConst routeOne spamA 30 0 "OS_LONG" "m2" "BTCUSDT" (some true) "777"
      (by decide) (by decide) rfl rfl (by norm_num [COOLDOWN_SEC]),
   C8_antispam_gate.2.1 sigConst routeOne spamB 30 0 "OS_LONG" "m1" "BTCUSDT" (some true) "777"
      (by decide) (by decide) rfl rfl rfl (by norm_num [DEDUP_WINDOW_SEC]),
   C8_antispam_gate.2.2 sigConst routeOne initSpam 0 100 "OS_LONG" "m1" "m2" "BTCUSDT" "777"
      (by decide) (by decide) (by decide) rfl rfl (by decide) rfl rfl rfl
      (by norm_num [COOLDOWN_SEC])⟩

end BncBot
